import Mathlib

/-!
Shallow embedding of the Sev donation-matching backend
(Express + Prisma/PostGIS controllers) for specification checking.

Conventions of the embedding:
* Machine state is an explicit `Db` record holding the five tables of
  `prisma/migrations/20250826075720_init/migration.sql` plus the SERIAL
  counters.
* Each controller function becomes a pure Lean function from the parsed
  request (post `zod` validation data, with validation checks transcribed
  where the claims depend on them; the `zod` e-mail format regex is not
  transcribed, no claim depends on it) and the current `Db` to an HTTP
  status plus the next `Db`.
* JavaScript number truthiness (`0` and `undefined` are falsy) is modelled
  by `truthyQ` on `Option ℚ`.
* bcrypt and the PostGIS `ST_DWithin` predicate are external building
  blocks; they are passed in as explicit function parameters (`Bcrypt`,
  `DWithin`).
* Timestamps are milliseconds as `Nat`; `Math.random`-generated OTP codes
  are taken as an explicit oracle argument.
-/

/-- `Role` enum of the schema. -/
inductive Role where
  | DONOR
  | ACCEPTOR
  | ADMIN
deriving DecidableEq, Repr

/-- `Category` enum of the schema. -/
inductive Category where
  | CLOTHING
  | ELECTRONICS
  | FOOD
  | FURNITURE
  | BOOKS
  | HOUSEHOLD
  | SPECIAL_REQUEST
deriving DecidableEq, Repr

/-- `ListingStatus` enum of the schema. -/
inductive ListingStatus where
  | ACTIVE
  | CLAIMED
  | COMPLETED
deriving DecidableEq, Repr

/-- `RequestStatus` enum of the schema. -/
inductive RequestStatus where
  | OPEN
  | FULFILLED
  | CLOSED
deriving DecidableEq, Repr

/-- A PostGIS point: longitude, latitude. -/
abbrev GeoPoint := ℚ × ℚ

/-- Row of table `"User"`. -/
structure UserRow where
  id : Nat
  fname : String
  lname : String
  email : String
  password : String
  role : Role
  address : String
  location : Option GeoPoint
  orgDocuments : Option String
  isVerified : Bool
  otp : Option String
  otpExpiresAt : Option Nat
deriving DecidableEq, Repr

/-- Row of table `"Listing"`. -/
structure ListingRow where
  id : Nat
  userId : Nat
  title : String
  description : Option String
  category : Category
  location : Option GeoPoint
  createdAt : Nat
  updatedAt : Nat
  status : ListingStatus
deriving DecidableEq, Repr

/-- Row of table `"Request"`. -/
structure RequestRow where
  id : Nat
  userId : Nat
  title : String
  description : Option String
  category : Category
  quantity : Option Nat
  location : Option GeoPoint
  createdAt : Nat
  updatedAt : Nat
  status : RequestStatus
deriving DecidableEq, Repr

/-- Row of table `"Message"`. -/
structure MessageRow where
  id : Nat
  senderId : Nat
  receiverId : Nat
  listingId : Option Nat
  requestId : Option Nat
  content : String
  createdAt : Nat
deriving DecidableEq, Repr

/-- Row of table `"Log"`. -/
structure LogRow where
  id : Nat
  userId : Option Nat
  action : String
  createdAt : Nat
deriving DecidableEq, Repr

/-- The whole database, with the SERIAL counters of the five tables. -/
structure Db where
  users : List UserRow
  listings : List ListingRow
  requests : List RequestRow
  messages : List MessageRow
  logs : List LogRow
  nextUserId : Nat
  nextListingId : Nat
  nextRequestId : Nat
  nextMessageId : Nat
  nextLogId : Nat
deriving DecidableEq, Repr

/-- The empty database. -/
def emptyDb : Db :=
  { users := [], listings := [], requests := [], messages := [], logs := []
    nextUserId := 1, nextListingId := 1, nextRequestId := 1
    nextMessageId := 1, nextLogId := 1 }

/-- The authenticated caller decoded from the JWT by the `authenticate`
middleware (`req.user`). -/
structure AuthUser where
  id : Nat
  role : Role
deriving DecidableEq, Repr

/-- External bcrypt primitives (out of scope per the spec): `bcrypt.hash`
with a cost factor, and `bcrypt.compare`. -/
structure Bcrypt where
  hash : String → Nat → String
  compare : String → String → Bool

/-- External PostGIS `ST_DWithin` over geographies (out of scope per the
spec): point, reference point, radius in metres. -/
abbrev DWithin := GeoPoint → GeoPoint → ℚ → Bool

/-- JavaScript truthiness of an optional number: `undefined` and `0` are
falsy. -/
def truthyQ : Option ℚ → Bool
  | none => false
  | some x => decide (x ≠ 0)

/-- `prisma.user.findUnique({ where: { id } })`. -/
def findUserById (db : Db) (id : Nat) : Option UserRow :=
  db.users.find? (fun u => u.id == id)

/-- `prisma.user.findUnique({ where: { email } })`. -/
def findUserByEmail (db : Db) (email : String) : Option UserRow :=
  db.users.find? (fun u => u.email == email)

/-- `prisma.listing.findUnique({ where: { id } })`. -/
def findListingById (db : Db) (id : Nat) : Option ListingRow :=
  db.listings.find? (fun l => l.id == id)

/-- `prisma.request.findUnique({ where: { id } })`. -/
def findRequestById (db : Db) (id : Nat) : Option RequestRow :=
  db.requests.find? (fun r => r.id == id)

/-- Replace the user row with the given id (a `prisma.user.update`). -/
def updateUserRow (db : Db) (id : Nat) (f : UserRow → UserRow) : Db :=
  { db with users := db.users.map (fun u => if u.id == id then f u else u) }

/-- Replace the listing row with the given id. -/
def updateListingRow (db : Db) (id : Nat) (f : ListingRow → ListingRow) : Db :=
  { db with listings := db.listings.map (fun l => if l.id == id then f l else l) }

/-- Replace the request row with the given id. -/
def updateRequestRow (db : Db) (id : Nat) (f : RequestRow → RequestRow) : Db :=
  { db with requests := db.requests.map (fun r => if r.id == id then f r else r) }

/-- `prisma.log.create`: append one audit-log row (SERIAL id, `createdAt`
defaulting to the current timestamp). -/
def appendLog (db : Db) (userId : Option Nat) (action : String) (now : Nat) : Db :=
  { db with
      logs := db.logs ++ [{ id := db.nextLogId, userId := userId
                            action := action, createdAt := now }]
      nextLogId := db.nextLogId + 1 }

/-! ## Auth controller (src/unnamed/part_001: register, verifyOtp, resendOtp,
login) and the admin log reader (getLogs). -/

/-- Parsed body of `registerSchema` (the `zod` e-mail format regex is not
transcribed; `z.enum(['DONOR','ACCEPTOR'])` means the role is never ADMIN). -/
structure RegisterBody where
  fname : String
  lname : String
  email : String
  password : String
  address : String
  role : Role
deriving DecidableEq, Repr

/-- `registerSchema` checks (string minimum lengths and the role enum). -/
def registerParseOk (b : RegisterBody) : Bool :=
  decide (1 ≤ b.fname.length) && decide (1 ≤ b.lname.length) &&
  decide (6 ≤ b.password.length) && decide (1 ≤ b.address.length) &&
  decide (b.role ≠ Role.ADMIN)

/-- `register`: reject duplicate e-mails, hash the password, store the OTP
with a 10-minute expiry, create the (unverified) user. -/
def register (db : Db) (bc : Bcrypt) (now : Nat) (otpCode : String)
    (b : RegisterBody) : Nat × Db :=
  if ¬ registerParseOk b then (400, db)
  else if (findUserByEmail db b.email).isSome then (400, db)
  else
    let u : UserRow :=
      { id := db.nextUserId, fname := b.fname, lname := b.lname
        email := b.email, password := bc.hash b.password 10, role := b.role
        address := b.address, location := none, orgDocuments := none
        isVerified := false, otp := some otpCode
        otpExpiresAt := some (now + 10 * 60 * 1000) }
    (201, { db with users := db.users ++ [u], nextUserId := db.nextUserId + 1 })

/-- `otpSchema`: positive integer user id, 6-character code. -/
def otpParseOk (userId : Nat) (otpCode : String) : Bool :=
  decide (1 ≤ userId) && otpCode.length == 6

/-- `verifyOtp`: 400 when the user is missing or already verified, 400 when
the code differs from the stored OTP, the expiry is cleared, or the expiry is
strictly in the past (`user.otpExpiresAt < new Date()`); on success mark the
user verified and clear the OTP and its expiry. -/
def verifyOtp (db : Db) (now : Nat) (userId : Nat) (otpCode : String) : Nat × Db :=
  if ¬ otpParseOk userId otpCode then (400, db)
  else
    match findUserById db userId with
    | none => (400, db)
    | some u =>
      if u.isVerified then (400, db)
      else if u.otp ≠ some otpCode then (400, db)
      else
        match u.otpExpiresAt with
        | none => (400, db)
        | some e =>
          if e < now then (400, db)
          else
            (200, updateUserRow db userId (fun v =>
              { v with isVerified := true, otp := none, otpExpiresAt := none }))

/-- `resendOtp`: store a fresh OTP with a fresh 10-minute expiry for an
existing, not-yet-verified user. -/
def resendOtp (db : Db) (now : Nat) (otpCode : String) (userId : Nat) : Nat × Db :=
  if ¬ decide (1 ≤ userId) then (400, db)
  else
    match findUserById db userId with
    | none => (400, db)
    | some u =>
      if u.isVerified then (400, db)
      else
        (200, updateUserRow db userId (fun v =>
          { v with otp := some otpCode, otpExpiresAt := some (now + 10 * 60 * 1000) }))

/-- Result of `login`: the HTTP status, whether a JWT was signed and sent,
and the (unchanged) database. -/
structure LoginRes where
  status : Nat
  tokenIssued : Bool
  db : Db
deriving Repr

/-- `login`: 401 for an unknown e-mail, 403 for an unverified account,
401 for a bcrypt mismatch, otherwise sign and return a JWT. -/
def login (db : Db) (bc : Bcrypt) (email password : String) : LoginRes :=
  if password.length < 1 then ⟨400, false, db⟩
  else
    match findUserByEmail db email with
    | none => ⟨401, false, db⟩
    | some u =>
      if ¬ u.isVerified then ⟨403, false, db⟩
      else if ¬ bc.compare password u.password then ⟨401, false, db⟩
      else ⟨200, true, db⟩

/-- `needle.isPrefixOf hay`-based substring test on character lists. -/
def subList : List Char → List Char → Bool
  | [], needle => needle.isEmpty
  | c :: t, needle => needle.isPrefixOf (c :: t) || subList t needle

/-- Case-insensitive `contains` (Prisma `mode: 'insensitive'`). -/
def strContainsCI (hay needle : String) : Bool :=
  subList hay.toLower.toList needle.toLower.toList

/-- `getLogs`: paginated read of the audit log, filtering by action text
(case-insensitive) or, when the search string is numeric, by user id
(`Number('')` is `0`, so an empty search also admits the userId branch).
Read-only: the database is returned unchanged. -/
def getLogs (db : Db) (page limit : Nat) (search : String) : Nat × Db × List LogRow :=
  let skip := (page - 1) * limit
  let uidFilter : Option Nat := if search = "" then some 0 else search.toNat?
  let rows := db.logs.filter (fun l =>
    strContainsCI l.action search ||
      (match uidFilter with
       | some n => l.userId == some n
       | none => false))
  (200, db, (rows.drop skip).take limit)

/-! ## Listings controller (src/server/src/controllers/listingsController.ts).
`RequestRow.location` / `ListingRow.location` note: the init migration does
not declare a `location` column on `"Request"`, but the spec's data model
gives Request an optional point location and every request controller reads
and writes it; the Prisma schema itself is not part of src/, so the column
is modelled as present, per the spec. -/

/-- Bound check of `z.number().min(lo).max(hi)` for an optional number. -/
def rangeOk (lo hi : ℚ) : Option ℚ → Bool
  | none => true
  | some x => decide (lo ≤ x) && decide (x ≤ hi)

/-- Insert keeping larger keys first. -/
def insertDescBy {α : Type} (key : α → Nat) (x : α) : List α → List α
  | [] => [x]
  | y :: t => if key y ≤ key x then x :: y :: t else y :: insertDescBy key x t

/-- `ORDER BY createdAt DESC` (insertion sort on the key, descending). -/
def sortDescBy {α : Type} (key : α → Nat) : List α → List α
  | [] => []
  | x :: t => insertDescBy key x (sortDescBy key t)

/-- Parsed body of `createListingSchema`. -/
structure CreateListingBody where
  title : String
  description : Option String
  category : Category
  longitude : Option ℚ
  latitude : Option ℚ
deriving DecidableEq, Repr

/-- `createListingSchema` checks. -/
def createListingParseOk (b : CreateListingBody) : Bool :=
  decide (1 ≤ b.title.length) &&
  rangeOk (-180) 180 b.longitude && rangeOk (-90) 90 b.latitude

/-- Result of `createListing`: status, next database, and whether the raw
location-setting UPDATE was executed. -/
structure CreateListingRes where
  status : Nat
  db : Db
  locationUpdateRan : Bool
deriving Repr

/-- `createListing`: 403 for ADMIN (donors and acceptors both pass), insert
the listing (status defaults to ACTIVE, location to NULL), then run the raw
location UPDATE under the guard `longitude && latitude || user` — `user` is
the decoded JWT object and always truthy, so the UPDATE runs on every
successful call; `ST_SetSRID(ST_MakePoint(x, y), 4326)` is NULL when a
coordinate parameter is absent (SQL NULL), a point otherwise.  Finally append
the audit-log row. -/
def createListing (db : Db) (now : Nat) (user : AuthUser)
    (b : CreateListingBody) : CreateListingRes :=
  if user.role = Role.ADMIN then ⟨403, db, false⟩
  else if ¬ createListingParseOk b then ⟨400, db, false⟩
  else
    let listing : ListingRow :=
      { id := db.nextListingId, userId := user.id, title := b.title
        description := b.description, category := b.category, location := none
        createdAt := now, updatedAt := now, status := ListingStatus.ACTIVE }
    let db1 := { db with listings := db.listings ++ [listing]
                         nextListingId := db.nextListingId + 1 }
    let locGuard := (truthyQ b.longitude && truthyQ b.latitude) || true
    let db2 :=
      if locGuard then
        updateListingRow db1 listing.id (fun l =>
          { l with location :=
              match b.longitude, b.latitude with
              | some lo, some la => some (lo, la)
              | _, _ => none })
      else db1
    ⟨201, appendLog db2 (some user.id) ("Created listing: " ++ b.title) now, locGuard⟩

/-- Parsed query of `getListingsSchema` (page and limit default to 1 and 10;
the `.default(10000).optional()` chain on radius yields `undefined` when the
parameter is absent, so radius stays an `Option`). -/
structure GetListingsQuery where
  latitude : Option ℚ
  longitude : Option ℚ
  radius : Option ℚ
  category : Option Category
  page : Nat
  limit : Nat
deriving DecidableEq, Repr

/-- `getListingsSchema` checks. -/
def getListingsParseOk (q : GetListingsQuery) : Bool :=
  rangeOk (-90) 90 q.latitude && rangeOk (-180) 180 q.longitude &&
  (match q.radius with | none => true | some r => decide (0 ≤ r)) &&
  decide (1 ≤ q.page) && decide (1 ≤ q.limit)

/-- Result of `getListings`. -/
structure GetListingsRes where
  status : Nat
  db : Db
  data : List ListingRow
deriving Repr

/-- `getListings`: with truthy latitude, longitude and radius the geospatial
branch runs — but its raw SQL (lines 103-126) names the columns with
unquoted identifiers (`userId`, `createdAt`), which Postgres folds to
lower-case names that do not exist on the quoted camelCase schema, and it
splices the optional category fragment as a bound string parameter (a plain
template literal where the requests controller uses `Prisma.sql` /
`Prisma.empty`), so the statement is rejected by the database and the catch
block answers 500 (see `listingGeoQueryColumnRefs`).  Otherwise the
non-geospatial Prisma query returns the ACTIVE listings, optionally filtered
by category, newest first, paginated.  There is no fallback to the caller's
profile location: the function never consults `req.user`. -/
def getListings (db : Db) (q : GetListingsQuery) : GetListingsRes :=
  if ¬ getListingsParseOk q then ⟨400, db, []⟩
  else
    let skip := (q.page - 1) * q.limit
    if truthyQ q.latitude && truthyQ q.longitude && truthyQ q.radius then
      ⟨500, db, []⟩
    else
      let rows := db.listings.filter (fun l =>
        decide (l.status = ListingStatus.ACTIVE) &&
          (match q.category with
           | none => true
           | some c => decide (l.category = c)))
      ⟨200, db, ((sortDescBy ListingRow.createdAt rows).drop skip).take q.limit⟩

/-- `getListingById`: read-only lookup (plus a read-only raw location
fetch). -/
def getListingById (db : Db) (id : Nat) : Nat × Db :=
  match findListingById db id with
  | none => (404, db)
  | some _ => (200, db)

/-- Parsed body of `updateListingSchema`. -/
structure UpdateListingBody where
  title : Option String
  description : Option String
  category : Option Category
  status : Option ListingStatus
  longitude : Option ℚ
  latitude : Option ℚ
deriving DecidableEq, Repr

/-- `updateListingSchema` checks. -/
def updateListingParseOk (b : UpdateListingBody) : Bool :=
  (match b.title with | none => true | some t => decide (1 ≤ t.length)) &&
  rangeOk (-180) 180 b.longitude && rangeOk (-90) 90 b.latitude

/-- Result of `updateListing`. -/
structure UpdateListingRes where
  status : Nat
  db : Db
  locationUpdateRan : Bool
deriving Repr

/-- `updateListing`: 404 when absent, 403 unless the caller is ADMIN or the
owner; the Prisma update overwrites exactly the supplied fields (any status
of the enum is accepted as-is); the raw location UPDATE runs only under
`longitude && latitude`; then the audit-log row is appended. -/
def updateListing (db : Db) (now : Nat) (user : AuthUser) (id : Nat)
    (b : UpdateListingBody) : UpdateListingRes :=
  if ¬ updateListingParseOk b then ⟨400, db, false⟩
  else
    match findListingById db id with
    | none => ⟨404, db, false⟩
    | some listing =>
      if user.role ≠ Role.ADMIN ∧ listing.userId ≠ user.id then ⟨403, db, false⟩
      else
        let db1 := updateListingRow db id (fun l =>
          { l with
              title := b.title.getD l.title
              description := match b.description with
                             | none => l.description
                             | some d => some d
              category := b.category.getD l.category
              status := b.status.getD l.status
              updatedAt := now })
        let locGuard := truthyQ b.longitude && truthyQ b.latitude
        let db2 :=
          if locGuard then
            updateListingRow db1 id (fun l =>
              { l with location :=
                  match b.longitude, b.latitude with
                  | some lo, some la => some (lo, la)
                  | _, _ => none })
          else db1
        ⟨200, appendLog db2 (some user.id)
          ("Updated listing: " ++ b.title.getD listing.title) now, locGuard⟩

/-- `deleteListing`: 404 when absent, 403 unless ADMIN or owner; the Prisma
delete fires `Message_listingId_fkey ON DELETE SET NULL`; then the audit-log
row is appended and 204 is returned. -/
def deleteListing (db : Db) (now : Nat) (user : AuthUser) (id : Nat) : Nat × Db :=
  match findListingById db id with
  | none => (404, db)
  | some listing =>
    if user.role ≠ Role.ADMIN ∧ listing.userId ≠ user.id then (403, db)
    else
      let db1 := { db with
        listings := db.listings.filter (fun l => l.id != id)
        messages := db.messages.map (fun m =>
          if m.listingId = some id then { m with listingId := none } else m) }
      (204, appendLog db1 (some user.id) ("Deleted listing: " ++ listing.title) now)

/-! ## Requests controller (src/server/src/controllers/requestsController.ts). -/

/-- Parsed body of `createRequestSchema`. -/
structure CreateRequestBody where
  title : String
  description : Option String
  category : Category
  quantity : Option Nat
  longitude : Option ℚ
  latitude : Option ℚ
deriving DecidableEq, Repr

/-- `createRequestSchema` checks. -/
def createRequestParseOk (b : CreateRequestBody) : Bool :=
  decide (1 ≤ b.title.length) &&
  (match b.quantity with | none => true | some q => decide (1 ≤ q)) &&
  rangeOk (-180) 180 b.longitude && rangeOk (-90) 90 b.latitude

/-- Result of `createRequest`. -/
structure CreateRequestRes where
  status : Nat
  db : Db
  locationUpdateRan : Bool
deriving Repr

/-- `createRequest`: 403 unless the caller's role is ACCEPTOR; insert the
request (status defaults to OPEN); run the raw location UPDATE only under
`longitude && latitude` (both present and non-zero); append the audit-log
row. -/
def createRequest (db : Db) (now : Nat) (user : AuthUser)
    (b : CreateRequestBody) : CreateRequestRes :=
  if user.role ≠ Role.ACCEPTOR then ⟨403, db, false⟩
  else if ¬ createRequestParseOk b then ⟨400, db, false⟩
  else
    let request : RequestRow :=
      { id := db.nextRequestId, userId := user.id, title := b.title
        description := b.description, category := b.category
        quantity := b.quantity, location := none
        createdAt := now, updatedAt := now, status := RequestStatus.OPEN }
    let db1 := { db with requests := db.requests ++ [request]
                         nextRequestId := db.nextRequestId + 1 }
    let locGuard := truthyQ b.longitude && truthyQ b.latitude
    let db2 :=
      if locGuard then
        updateRequestRow db1 request.id (fun r =>
          { r with location :=
              match b.longitude, b.latitude with
              | some lo, some la => some (lo, la)
              | _, _ => none })
      else db1
    ⟨201, appendLog db2 (some user.id) ("Created request: " ++ b.title) now, locGuard⟩

/-- Parsed query of `getRequestsSchema`. -/
structure GetRequestsQuery where
  latitude : Option ℚ
  longitude : Option ℚ
  radius : Option ℚ
  category : Option Category
  page : Nat
  limit : Nat
deriving DecidableEq, Repr

/-- `radius && radius > 0` of the controller (truthiness plus the strict
comparison). -/
def radiusPositive : Option ℚ → Bool
  | none => false
  | some x => decide (x ≠ 0) && decide (0 < x)

/-- `getRequestsSchema` checks, including the `.refine`: with a positive
radius, either both coordinates are present or neither is. -/
def getRequestsParseOk (q : GetRequestsQuery) : Bool :=
  rangeOk (-90) 90 q.latitude && rangeOk (-180) 180 q.longitude &&
  (match q.radius with | none => true | some r => decide (0 ≤ r)) &&
  decide (1 ≤ q.page) && decide (1 ≤ q.limit) &&
  (if radiusPositive q.radius then
    (q.latitude.isSome && q.longitude.isSome) ||
      (q.latitude.isNone && q.longitude.isNone)
   else true)

/-- The geospatial SELECT of getRequests (valid SQL: camelCase columns are
double-quoted and the category fragment uses `Prisma.sql` / `Prisma.empty`):
OPEN requests whose non-NULL point is `ST_DWithin` the centre, optionally
filtered by category, newest first, paginated. -/
def requestGeoSearch (db : Db) (dw : DWithin) (center : GeoPoint) (radius : ℚ)
    (category : Option Category) (skip limit : Nat) : List RequestRow :=
  let rows := db.requests.filter (fun r =>
    (match r.location with | none => false | some p => dw p center radius) &&
    (match category with | none => true | some c => decide (r.category = c)) &&
    decide (r.status = RequestStatus.OPEN))
  ((sortDescBy RequestRow.createdAt rows).drop skip).take limit

/-- Result of `getRequests`. -/
structure GetRequestsRes where
  status : Nat
  db : Db
  data : List RequestRow
  usingUserLocation : Bool
  searchCenter : Option GeoPoint
deriving Repr

/-- `getRequests`: when the radius is positive, a coordinate is missing (or
zero — JS truthiness) and the caller's id is truthy, fall back to the
caller's stored profile point (raw `ST_X`/`ST_Y` lookup); answer 400 when
the profile row has no location.  With a centre and a positive radius run
the geospatial query; otherwise the plain OPEN-requests query. -/
def getRequests (db : Db) (dw : DWithin) (user : AuthUser)
    (q : GetRequestsQuery) : GetRequestsRes :=
  if ¬ getRequestsParseOk q then ⟨400, db, [], false, none⟩
  else
    let skip := (q.page - 1) * q.limit
    let nonGeo : GetRequestsRes :=
      let rows := db.requests.filter (fun r =>
        decide (r.status = RequestStatus.OPEN) &&
          (match q.category with
           | none => true
           | some c => decide (r.category = c)))
      ⟨200, db, ((sortDescBy RequestRow.createdAt rows).drop skip).take q.limit,
        false, none⟩
    match q.radius with
    | none => nonGeo
    | some rad =>
      if ¬ (rad ≠ 0 ∧ 0 < rad) then nonGeo
      else if (truthyQ q.latitude = false ∨ truthyQ q.longitude = false) ∧
              user.id ≠ 0 then
        match findUserById db user.id with
        | none => ⟨400, db, [], false, none⟩
        | some u =>
          match u.location with
          | none => ⟨400, db, [], false, none⟩
          | some p =>
            ⟨200, db, requestGeoSearch db dw p rad q.category skip q.limit,
              true, some p⟩
      else
        match q.latitude, q.longitude with
        | some la, some lo =>
          ⟨200, db, requestGeoSearch db dw (lo, la) rad q.category skip q.limit,
            false, some (lo, la)⟩
        | _, _ => nonGeo

/-- `getRequestById`: read-only lookup. -/
def getRequestById (db : Db) (id : Nat) : Nat × Db :=
  match findRequestById db id with
  | none => (404, db)
  | some _ => (200, db)

/-- Parsed body of `updateRequestSchema`. -/
structure UpdateRequestBody where
  title : Option String
  description : Option String
  category : Option Category
  quantity : Option Nat
  status : Option RequestStatus
  longitude : Option ℚ
  latitude : Option ℚ
deriving DecidableEq, Repr

/-- `updateRequestSchema` checks. -/
def updateRequestParseOk (b : UpdateRequestBody) : Bool :=
  (match b.title with | none => true | some t => decide (1 ≤ t.length)) &&
  (match b.quantity with | none => true | some n => decide (1 ≤ n)) &&
  rangeOk (-180) 180 b.longitude && rangeOk (-90) 90 b.latitude

/-- Result of `updateRequest`. -/
structure UpdateRequestRes where
  status : Nat
  db : Db
  locationUpdateRan : Bool
deriving Repr

/-- `updateRequest`: mirrors `updateListing` on the request table. -/
def updateRequest (db : Db) (now : Nat) (user : AuthUser) (id : Nat)
    (b : UpdateRequestBody) : UpdateRequestRes :=
  if ¬ updateRequestParseOk b then ⟨400, db, false⟩
  else
    match findRequestById db id with
    | none => ⟨404, db, false⟩
    | some request =>
      if user.role ≠ Role.ADMIN ∧ request.userId ≠ user.id then ⟨403, db, false⟩
      else
        let db1 := updateRequestRow db id (fun r =>
          { r with
              title := b.title.getD r.title
              description := match b.description with
                             | none => r.description
                             | some d => some d
              category := b.category.getD r.category
              quantity := match b.quantity with
                          | none => r.quantity
                          | some n => some n
              status := b.status.getD r.status
              updatedAt := now })
        let locGuard := truthyQ b.longitude && truthyQ b.latitude
        let db2 :=
          if locGuard then
            updateRequestRow db1 id (fun r =>
              { r with location :=
                  match b.longitude, b.latitude with
                  | some lo, some la => some (lo, la)
                  | _, _ => none })
          else db1
        ⟨200, appendLog db2 (some user.id)
          ("Updated request: " ++ b.title.getD request.title) now, locGuard⟩

/-- `deleteRequest`: the Prisma delete fires
`Message_requestId_fkey ON DELETE SET NULL`. -/
def deleteRequest (db : Db) (now : Nat) (user : AuthUser) (id : Nat) : Nat × Db :=
  match findRequestById db id with
  | none => (404, db)
  | some request =>
    if user.role ≠ Role.ADMIN ∧ request.userId ≠ user.id then (403, db)
    else
      let db1 := { db with
        requests := db.requests.filter (fun r => r.id != id)
        messages := db.messages.map (fun m =>
          if m.requestId = some id then { m with requestId := none } else m) }
      (204, appendLog db1 (some user.id) ("Deleted request: " ++ request.title) now)

/-! ## Messages controller (src/server/src/controllers/msgsController.ts). -/

/-- Parsed body of `sendMessageSchema`. -/
structure SendMessageBody where
  receiverId : Nat
  content : String
  listingId : Option Nat
  requestId : Option Nat
deriving DecidableEq, Repr

/-- `sendMessageSchema` checks (positive ids, non-empty content). -/
def sendMessageParseOk (b : SendMessageBody) : Bool :=
  decide (1 ≤ b.receiverId) && decide (1 ≤ b.content.length) &&
  (match b.listingId with | none => true | some i => decide (1 ≤ i)) &&
  (match b.requestId with | none => true | some i => decide (1 ≤ i))

/-- `sendMessage`: the self-messaging check (`sender.id === receiverId`)
comes right after parsing, before the receiver lookup and before any write;
then receiver / listing / request existence checks; then the message insert
and the audit-log append. -/
def sendMessage (db : Db) (now : Nat) (sender : AuthUser)
    (b : SendMessageBody) : Nat × Db :=
  if ¬ sendMessageParseOk b then (400, db)
  else if sender.id = b.receiverId then (400, db)
  else if (findUserById db b.receiverId).isNone then (404, db)
  else if (match b.listingId with
           | none => false
           | some lid => (findListingById db lid).isNone) then (404, db)
  else if (match b.requestId with
           | none => false
           | some rid => (findRequestById db rid).isNone) then (404, db)
  else
    let m : MessageRow :=
      { id := db.nextMessageId, senderId := sender.id
        receiverId := b.receiverId, listingId := b.listingId
        requestId := b.requestId, content := b.content, createdAt := now }
    let db1 := { db with messages := db.messages ++ [m]
                         nextMessageId := db.nextMessageId + 1 }
    (201, appendLog db1 (some sender.id)
      ("Sent message to user " ++ toString b.receiverId ++
        (match b.listingId with
         | none => ""
         | some lid => " for listing " ++ toString lid) ++
        (match b.requestId with
         | none => ""
         | some rid => " for request " ++ toString rid)) now)

/-- `getMessages`: the caller's sent-or-received messages, optionally
filtered by listing / request, newest first, paginated; a "Viewed messages"
audit-log row is appended. -/
def getMessages (db : Db) (now : Nat) (user : AuthUser)
    (listingId requestId : Option Nat) (page limit : Nat) :
    Nat × Db × List MessageRow :=
  let skip := (page - 1) * limit
  let rows := db.messages.filter (fun m =>
    (m.senderId == user.id || m.receiverId == user.id) &&
    (match listingId with | none => true | some lid => m.listingId == some lid) &&
    (match requestId with | none => true | some rid => m.requestId == some rid))
  let db1 := appendLog db (some user.id)
    ("Viewed messages" ++
      (match listingId with
       | none => ""
       | some lid => " for listing " ++ toString lid) ++
      (match requestId with
       | none => ""
       | some rid => " for request " ++ toString rid)) now
  (200, db1, ((sortDescBy MessageRow.createdAt rows).drop skip).take limit)

/-! ## User controller (src/server/src/controllers/userController.ts):
getUserProfile, getUsers, deleteUser, updateUser, updateUserLocation,
changePassword. -/

/-- `getUserProfile`: read-only (user row plus a raw location read). -/
def getUserProfile (db : Db) (user : AuthUser) : Nat × Db :=
  match findUserById db user.id with
  | none => (404, db)
  | some _ => (200, db)

/-- `getUsers`: name/e-mail search, pagination, a read-only raw location
fetch for the page (the `Prisma.join` empty-page edge is not modelled), and
the "Users list viewed" audit-log append. -/
def getUsers (db : Db) (now : Nat) (caller : AuthUser) (page limit : Nat)
    (search : String) : Nat × Db × List UserRow :=
  let skip := (page - 1) * limit
  let rows := db.users.filter (fun u =>
    strContainsCI u.fname search || strContainsCI u.lname search ||
      strContainsCI u.email search)
  (200, appendLog db (some caller.id) "Users list viewed" now,
    (rows.drop skip).take limit)

/-- Does the user still own dependent rows under an `ON DELETE RESTRICT`
foreign key (listings, requests, or messages as sender or receiver)? -/
def userOwnsRows (db : Db) (uid : Nat) : Bool :=
  db.listings.any (fun l => l.userId == uid) ||
  db.requests.any (fun r => r.userId == uid) ||
  db.messages.any (fun m => m.senderId == uid || m.receiverId == uid)

/-- `deleteUser`: `prisma.user.delete` throws (caught as 500, nothing
changed) when the row is missing or an `ON DELETE RESTRICT` dependent
exists; on success the row is removed, `Log_userId_fkey ON DELETE SET NULL`
nulls the userId of that user's log rows, and a "User ... deleted" log row
is appended for the caller. -/
def deleteUser (db : Db) (now : Nat) (caller : AuthUser) (id : Nat) : Nat × Db :=
  match findUserById db id with
  | none => (500, db)
  | some _ =>
    if userOwnsRows db id then (500, db)
    else
      let db1 := { db with
        users := db.users.filter (fun u => u.id != id)
        logs := db.logs.map (fun l =>
          if l.userId = some id then { l with userId := none } else l) }
      (200, appendLog db1 (some caller.id)
        ("User " ++ toString id ++ " deleted") now)

/-- Parsed body of `updateUserSchema` (all fields optional). -/
structure UpdateUserBody where
  fname : Option String
  lname : Option String
  email : Option String
  address : Option String
deriving DecidableEq, Repr

/-- `updateUserSchema` checks (minimum lengths; the e-mail format regex is
not transcribed). -/
def updateUserParseOk (b : UpdateUserBody) : Bool :=
  (match b.fname with | none => true | some s => decide (1 ≤ s.length)) &&
  (match b.lname with | none => true | some s => decide (1 ≤ s.length)) &&
  (match b.address with | none => true | some s => decide (1 ≤ s.length))

/-- `updateUser`: the `zod` parse sits outside the try block, so a parse
failure propagates to the express error handler as 500; then 404 for a
missing row, 400 when nothing would change, 400 on an e-mail conflict,
otherwise update the supplied fields and append the audit-log row (whose
text carries a JSON dump of the fields, abbreviated here). -/
def updateUser (db : Db) (now : Nat) (caller : AuthUser)
    (b : UpdateUserBody) : Nat × Db :=
  if ¬ updateUserParseOk b then (500, db)
  else
    match findUserById db caller.id with
    | none => (404, db)
    | some dbUser =>
      let noChanges :=
        (match b.fname with | none => true | some f => f == dbUser.fname) &&
        (match b.lname with | none => true | some l => l == dbUser.lname) &&
        (match b.email with | none => true | some e => e == dbUser.email) &&
        (match b.address with | none => true | some a => a == dbUser.address)
      if noChanges then (400, db)
      else if (match b.email with
               | none => false
               | some e => e != dbUser.email &&
                   db.users.any (fun u => u.email == e && u.id != caller.id)) then
        (400, db)
      else
        let db1 := updateUserRow db caller.id (fun u =>
          { u with fname := b.fname.getD u.fname, lname := b.lname.getD u.lname
                   email := b.email.getD u.email
                   address := b.address.getD u.address })
        (200, appendLog db1 (some caller.id) "Updated user info" now)

/-- `updateUserLocation`: the parse is outside the try block (parse failure
is a 500 via express); on success the raw UPDATE stores the point and the
audit-log row is appended. -/
def updateUserLocation (db : Db) (now : Nat) (caller : AuthUser)
    (longitude latitude : ℚ) : Nat × Db :=
  if ¬ (rangeOk (-180) 180 (some longitude) && rangeOk (-90) 90 (some latitude)) then
    (500, db)
  else
    let db1 := updateUserRow db caller.id (fun u =>
      { u with location := some (longitude, latitude) })
    (200, appendLog db1 (some caller.id)
      ("Updated user location: POINT(" ++ toString longitude ++ " " ++
        toString latitude ++ ")") now)

/-- `changePasswordSchema` checks. -/
def changePasswordParseOk (currentPassword newPassword : String) : Bool :=
  decide (1 ≤ currentPassword.length) && decide (8 ≤ newPassword.length)

/-- `changePassword`: verify the current password, reject reuse, store the
new hash together with a fresh OTP expiring in 10 minutes, reset
`isVerified`, and append the audit-log row. -/
def changePassword (db : Db) (bc : Bcrypt) (now : Nat) (otpCode : String)
    (user : AuthUser) (currentPassword newPassword : String) : Nat × Db :=
  if ¬ changePasswordParseOk currentPassword newPassword then (400, db)
  else
    match findUserById db user.id with
    | none => (404, db)
    | some dbUser =>
      if ¬ bc.compare currentPassword dbUser.password then (400, db)
      else if bc.compare newPassword dbUser.password then (400, db)
      else
        let db1 := updateUserRow db user.id (fun v =>
          { v with password := bc.hash newPassword 10, otp := some otpCode
                   otpExpiresAt := some (now + 10 * 60 * 1000)
                   isVerified := false })
        (200, appendLog db1 (some user.id)
          "Password change OTP generated, isVerified set to false" now)

/-! ## One step of the system: every controller operation, dispatched. -/

/-- An invocation of one of the REST operations, with its parsed inputs
(timestamps and generated OTP codes are oracle arguments). -/
inductive Op where
  | opRegister (now : Nat) (otpCode : String) (b : RegisterBody)
  | opVerifyOtp (now userId : Nat) (otpCode : String)
  | opResendOtp (now : Nat) (otpCode : String) (userId : Nat)
  | opLogin (email password : String)
  | opGetLogs (page limit : Nat) (search : String)
  | opCreateListing (now : Nat) (user : AuthUser) (b : CreateListingBody)
  | opGetListings (q : GetListingsQuery)
  | opGetListingById (id : Nat)
  | opUpdateListing (now : Nat) (user : AuthUser) (id : Nat) (b : UpdateListingBody)
  | opDeleteListing (now : Nat) (user : AuthUser) (id : Nat)
  | opCreateRequest (now : Nat) (user : AuthUser) (b : CreateRequestBody)
  | opGetRequests (user : AuthUser) (q : GetRequestsQuery)
  | opGetRequestById (id : Nat)
  | opUpdateRequest (now : Nat) (user : AuthUser) (id : Nat) (b : UpdateRequestBody)
  | opDeleteRequest (now : Nat) (user : AuthUser) (id : Nat)
  | opSendMessage (now : Nat) (sender : AuthUser) (b : SendMessageBody)
  | opGetMessages (now : Nat) (user : AuthUser) (listingId requestId : Option Nat)
      (page limit : Nat)
  | opGetUserProfile (user : AuthUser)
  | opGetUsers (now : Nat) (caller : AuthUser) (page limit : Nat) (search : String)
  | opDeleteUser (now : Nat) (caller : AuthUser) (id : Nat)
  | opUpdateUser (now : Nat) (caller : AuthUser) (b : UpdateUserBody)
  | opUpdateUserLocation (now : Nat) (caller : AuthUser) (longitude latitude : ℚ)
  | opChangePassword (now : Nat) (otpCode : String) (user : AuthUser)
      (currentPassword newPassword : String)

/-- The database after executing one operation (bcrypt and `ST_DWithin`
supplied externally). -/
def step (bc : Bcrypt) (dw : DWithin) : Op → Db → Db
  | .opRegister now otp b, db => (register db bc now otp b).2
  | .opVerifyOtp now uid otp, db => (verifyOtp db now uid otp).2
  | .opResendOtp now otp uid, db => (resendOtp db now otp uid).2
  | .opLogin e p, db => (login db bc e p).db
  | .opGetLogs p l s, db => (getLogs db p l s).2.1
  | .opCreateListing now u b, db => (createListing db now u b).db
  | .opGetListings q, db => (getListings db q).db
  | .opGetListingById i, db => (getListingById db i).2
  | .opUpdateListing now u i b, db => (updateListing db now u i b).db
  | .opDeleteListing now u i, db => (deleteListing db now u i).2
  | .opCreateRequest now u b, db => (createRequest db now u b).db
  | .opGetRequests u q, db => (getRequests db dw u q).db
  | .opGetRequestById i, db => (getRequestById db i).2
  | .opUpdateRequest now u i b, db => (updateRequest db now u i b).db
  | .opDeleteRequest now u i, db => (deleteRequest db now u i).2
  | .opSendMessage now s b, db => (sendMessage db now s b).2
  | .opGetMessages now u lid rid p l, db => (getMessages db now u lid rid p l).2.1
  | .opGetUserProfile u, db => (getUserProfile db u).2
  | .opGetUsers now c p l s, db => (getUsers db now c p l s).2.1
  | .opDeleteUser now c i, db => (deleteUser db now c i).2
  | .opUpdateUser now c b, db => (updateUser db now c b).2
  | .opUpdateUserLocation now c lo la, db => (updateUserLocation db now c lo la).2
  | .opChangePassword now otp u cp np, db => (changePassword db bc now otp u cp np).2

/-! ## The raw SQL of the two geospatial SELECTs, at identifier level. -/

/-- A column identifier occurrence in a SQL statement: its spelling in the
source and whether it is double-quoted. -/
structure SqlIdent where
  name : String
  quoted : Bool
deriving DecidableEq, Repr

/-- ASCII lower-casing of one character. -/
def lowerChar (c : Char) : Char :=
  if 'A' ≤ c ∧ c ≤ 'Z' then Char.ofNat (c.toNat + 32) else c

/-- Postgres case folding of an unquoted identifier (ASCII lower-casing). -/
def pgFoldName (s : String) : String := String.mk (s.data.map lowerChar)

/-- Postgres identifier resolution: a quoted identifier is taken verbatim,
an unquoted identifier is folded to lower case. -/
def pgResolve (i : SqlIdent) : String :=
  if i.quoted then i.name else pgFoldName i.name

/-- Columns of table `"Listing"` as declared (all double-quoted, camelCase
preserved) in the init migration. -/
def listingTableColumns : List String :=
  ["id", "userId", "title", "description", "category", "location",
   "createdAt", "updatedAt", "status"]

/-- Columns of table `"Request"` as declared in the init migration (plus
`location`, present per the spec's data model; see the note above). -/
def requestTableColumns : List String :=
  ["id", "userId", "title", "description", "category", "quantity",
   "location", "createdAt", "updatedAt", "status"]

/-- The column identifiers referenced by the geospatial SELECT of
`getListings` (listingsController.ts lines 104-114): every one of them is
written unquoted, `ORDER BY createdAt` included. -/
def listingGeoQueryColumnRefs : List SqlIdent :=
  [⟨"id", false⟩, ⟨"userId", false⟩, ⟨"title", false⟩, ⟨"description", false⟩,
   ⟨"category", false⟩, ⟨"status", false⟩, ⟨"createdAt", false⟩,
   ⟨"updatedAt", false⟩, ⟨"location", false⟩]

/-- The column identifiers referenced by the geospatial SELECT of
`getRequests` (requestsController.ts lines 139-161): the camelCase names are
double-quoted. -/
def requestGeoQueryColumnRefs : List SqlIdent :=
  [⟨"id", false⟩, ⟨"userId", true⟩, ⟨"title", false⟩, ⟨"description", false⟩,
   ⟨"category", false⟩, ⟨"quantity", false⟩, ⟨"status", false⟩,
   ⟨"createdAt", true⟩, ⟨"updatedAt", true⟩, ⟨"location", false⟩]

/-! ## Concrete test fixtures (used by witnesses and counterexamples). -/

/-- A concrete stand-in for the external bcrypt pair (hash is injective
enough for the fixtures; compare recognises exactly its own hashes). -/
def bcT : Bcrypt :=
  { hash := fun p _ => "h" ++ p
    compare := fun p h => h == "h" ++ p }

/-- A concrete stand-in for `ST_DWithin` (everything is within range). -/
def dwT : DWithin := fun _ _ _ => true

/-- A verified donor whose password hash matches `bcT` for `"hello1"`. -/
def userV : UserRow :=
  { id := 1, fname := "Ann", lname := "Lee", email := "a@x", password := "hhello1"
    role := Role.DONOR, address := "Main St", location := none
    orgDocuments := none, isVerified := true, otp := none, otpExpiresAt := none }

/-- Database holding just `userV`. -/
def dbLogin : Db := { emptyDb with users := [userV], nextUserId := 2 }

/-- An unverified user holding OTP `"123456"` that expires at time 1000. -/
def userO : UserRow :=
  { id := 1, fname := "Bob", lname := "Xu", email := "b@x", password := "hsecret"
    role := Role.ACCEPTOR, address := "Side St", location := none
    orgDocuments := none, isVerified := false, otp := some "123456"
    otpExpiresAt := some 1000 }

/-- Database holding just `userO`. -/
def dbOtp : Db := { emptyDb with users := [userO], nextUserId := 2 }

/-- A user with a stored profile point. -/
def userLoc : UserRow :=
  { id := 1, fname := "Cyn", lname := "Om", email := "c@x", password := "hpw"
    role := Role.ACCEPTOR, address := "Hill Rd", location := some (30, -2)
    orgDocuments := none, isVerified := true, otp := none, otpExpiresAt := none }

/-- A user without a stored profile point. -/
def userNoLoc : UserRow :=
  { id := 1, fname := "Dan", lname := "Po", email := "d@x", password := "hpw"
    role := Role.DONOR, address := "Lake Rd", location := none
    orgDocuments := none, isVerified := true, otp := none, otpExpiresAt := none }

/-- An ACTIVE listing owned by user 1. -/
def listingA : ListingRow :=
  { id := 1, userId := 1, title := "Chairs", description := none
    category := Category.FURNITURE, location := some (29, -1)
    createdAt := 10, updatedAt := 10, status := ListingStatus.ACTIVE }

/-- Database for the C1 scenarios: a caller with a stored point. -/
def dbReqLoc : Db := { emptyDb with users := [userLoc], nextUserId := 2 }

/-- Database for the C1 counterexample: the caller has no stored point and
one ACTIVE listing exists. -/
def dbNoLoc : Db :=
  { emptyDb with users := [userNoLoc], listings := [listingA]
                 nextUserId := 2, nextListingId := 2 }

/-- A proximity query: positive radius, no coordinates. -/
def qRadiusOnly : GetListingsQuery :=
  { latitude := none, longitude := none, radius := some 5000
    category := none, page := 1, limit := 10 }

/-- The same proximity query, for the requests endpoint. -/
def qRadiusOnlyR : GetRequestsQuery :=
  { latitude := none, longitude := none, radius := some 5000
    category := none, page := 1, limit := 10 }

/-- A minimal valid listing body without coordinates. -/
def bodyChair : CreateListingBody :=
  { title := "Chair", description := none, category := Category.FURNITURE
    longitude := none, latitude := none }

/-- A minimal valid request body without coordinates. -/
def bodyBlanket : CreateRequestBody :=
  { title := "Blankets", description := none, category := Category.HOUSEHOLD
    quantity := some 3, longitude := none, latitude := none }

/-- An update body that only sets the listing status. -/
def bodySetCompleted : UpdateListingBody :=
  { title := none, description := none, category := none
    status := some ListingStatus.COMPLETED, longitude := none, latitude := none }

/-- An update body that only sets the request status. -/
def bodySetClosed : UpdateRequestBody :=
  { title := none, description := none, category := none, quantity := none
    status := some RequestStatus.CLOSED, longitude := none, latitude := none }

/-- An admin and a deletable user (id 2) who has one audit-log row and no
listings, requests or messages. -/
def adminU : UserRow :=
  { id := 1, fname := "Eve", lname := "Qi", email := "e@x", password := "hpw"
    role := Role.ADMIN, address := "HQ", location := none
    orgDocuments := none, isVerified := true, otp := none, otpExpiresAt := none }

/-- The user whose audit-log row will be orphaned. -/
def victimU : UserRow :=
  { id := 2, fname := "Fay", lname := "Ru", email := "f@x", password := "hpw"
    role := Role.DONOR, address := "Barn", location := none
    orgDocuments := none, isVerified := true, otp := none, otpExpiresAt := none }

/-- The audit-log row written for user 2. -/
def logRow2 : LogRow := { id := 1, userId := some 2, action := "Created listing: Chairs", createdAt := 5 }

/-- Database for the C7 scenarios. -/
def dbDel : Db :=
  { emptyDb with users := [adminU, victimU], logs := [logRow2]
                 nextUserId := 3, nextLogId := 2 }

/-- A message attached to listing 1 and request 1, between users 1 and 2. -/
def msgAttached : MessageRow :=
  { id := 1, senderId := 1, receiverId := 2, listingId := some 1
    requestId := some 1, content := "hi", createdAt := 7 }

/-- An OPEN request owned by user 2. -/
def requestB : RequestRow :=
  { id := 1, userId := 2, title := "Blankets", description := none
    category := Category.HOUSEHOLD, quantity := some 3, location := none
    createdAt := 8, updatedAt := 8, status := RequestStatus.OPEN }

/-- Database for the C8 witness: two users, a listing and a request with an
attached message. -/
def dbFk : Db :=
  { emptyDb with users := [adminU, victimU], listings := [listingA]
                 requests := [requestB], messages := [msgAttached]
                 nextUserId := 3, nextListingId := 2, nextRequestId := 2
                 nextMessageId := 2 }

/-- What survives of an audit-log row: identity, action text and timestamp;
the user reference either survives or is nulled. -/
def logRowPreserved (row row' : LogRow) : Prop :=
  row'.id = row.id ∧ row'.action = row.action ∧ row'.createdAt = row.createdAt ∧
    (row'.userId = row.userId ∨ row'.userId = none)

/-- How the log table can evolve in one step: untouched, one row appended,
or (for `deleteUser`) the `ON DELETE SET NULL` pass followed by one appended
row. -/
def LogsExtends (db db' : Db) : Prop :=
  db'.logs = db.logs ∨ (∃ r, db'.logs = db.logs ++ [r]) ∨
    ∃ uid r, db'.logs =
      (db.logs.map (fun l => if l.userId = some uid then { l with userId := none } else l)) ++ [r]

/-! ## Theorems. -/

theorem find?_mapIf {α : Type} (p : α → Bool) (f : α → α)
    (hf : ∀ a, p (f a) = p a) (xs : List α) :
    (xs.map (fun a => if p a then f a else a)).find? p = (xs.find? p).map f := by
  induction xs with
  | nil => rfl
  | cons h t ih =>
    cases hph : p h with
    | true => simp [List.find?, hph, hf]
    | false => simp [List.find?, hph, ih]

theorem find?_filter_none {α : Type} (p q : α → Bool)
    (h : ∀ a, q a = true → p a = false) (xs : List α) :
    (xs.filter q).find? p = none := by
  induction xs with
  | nil => rfl
  | cons a t ih =>
    cases hq : q a with
    | true => simp [List.filter_cons, hq, List.find?, h a hq, ih]
    | false => simp [List.filter_cons, hq, ih]

theorem findUserById_updateUserRow (db : Db) (id : Nat) (f : UserRow → UserRow)
    (hf : ∀ v, (f v).id = v.id) :
    findUserById (updateUserRow db id f) id = (findUserById db id).map f := by
  unfold findUserById updateUserRow
  exact find?_mapIf _ f (fun v => by simp [hf]) db.users

theorem findListingById_updateListingRow (db : Db) (id : Nat)
    (f : ListingRow → ListingRow) (hf : ∀ v, (f v).id = v.id) :
    findListingById (updateListingRow db id f) id = (findListingById db id).map f := by
  unfold findListingById updateListingRow
  exact find?_mapIf _ f (fun v => by simp [hf]) db.listings

theorem findRequestById_updateRequestRow (db : Db) (id : Nat)
    (f : RequestRow → RequestRow) (hf : ∀ v, (f v).id = v.id) :
    findRequestById (updateRequestRow db id f) id = (findRequestById db id).map f := by
  unfold findRequestById updateRequestRow
  exact find?_mapIf _ f (fun v => by simp [hf]) db.requests

theorem preserved_of_extends (db db' : Db) (h : LogsExtends db db') :
    ∀ row ∈ db.logs, ∃ row' ∈ db'.logs, logRowPreserved row row' := by
  intro row hrow
  rcases h with h | ⟨r, h⟩ | ⟨uid, r, h⟩
  · exact ⟨row, h ▸ hrow, rfl, rfl, rfl, Or.inl rfl⟩
  · rw [h]
    exact ⟨row, List.mem_append_left _ hrow, rfl, rfl, rfl, Or.inl rfl⟩
  · rw [h]
    refine ⟨if row.userId = some uid then { row with userId := none } else row,
      List.mem_append_left _ (List.mem_map_of_mem _ hrow), ?_⟩
    by_cases hc : row.userId = some uid
    · simp [hc, logRowPreserved]
    · simp [hc, logRowPreserved]

/-- C9: sendMessage never lets a user message themselves — when the body's
receiverId equals the authenticated caller's id the call answers 400 and the
database (messages and logs included) is unchanged, whatever its contents:
the check precedes every lookup and write. -/
theorem C9_sendMessage_self (db : Db) (now : Nat) (sender : AuthUser)
    (b : SendMessageBody) (h : b.receiverId = sender.id) :
    (sendMessage db now sender b).1 = 400 ∧ (sendMessage db now sender b).2 = db := by
  unfold sendMessage
  by_cases hp : sendMessageParseOk b = true
  · simp [hp, h]
  · simp [hp]

/-- C9 witness: a concrete self-addressed message bounces with 400 and the
state is untouched. -/
theorem C9_witness :
    (sendMessage dbLogin 3 ⟨1, Role.DONOR⟩ ⟨1, "hi", none, none⟩).1 = 400 ∧
    (sendMessage dbLogin 3 ⟨1, Role.DONOR⟩ ⟨1, "hi", none, none⟩).2 = dbLogin :=
  C9_sendMessage_self dbLogin 3 ⟨1, Role.DONOR⟩ ⟨1, "hi", none, none⟩ rfl

/-- C10: createListing runs the raw location UPDATE on every successful
call (the guard `longitude && latitude || user` is always true for an
authenticated caller), even when both coordinates are absent from the body;
createRequest and updateListing skip their raw location UPDATE whenever a
coordinate is absent. -/
theorem C10_location_update_guard :
    (∀ (db : Db) (now : Nat) (u : AuthUser) (b : CreateListingBody),
      (createListing db now u b).status = 201 →
      (createListing db now u b).locationUpdateRan = true) ∧
    (∀ (db : Db) (now : Nat) (u : AuthUser) (b : CreateListingBody),
      u.role ≠ Role.ADMIN → createListingParseOk b = true →
      b.longitude = none → b.latitude = none →
      (createListing db now u b).status = 201 ∧
        (createListing db now u b).locationUpdateRan = true) ∧
    (∀ (db : Db) (now : Nat) (u : AuthUser) (b : CreateRequestBody),
      b.longitude = none ∨ b.latitude = none →
      (createRequest db now u b).locationUpdateRan = false) ∧
    (∀ (db : Db) (now : Nat) (u : AuthUser) (id : Nat) (b : UpdateListingBody),
      b.longitude = none ∨ b.latitude = none →
      (updateListing db now u id b).locationUpdateRan = false) := by
  refine ⟨?_, ?_, ?_, ?_⟩
  · intro db now u b h
    unfold createListing at h ⊢
    by_cases h1 : u.role = Role.ADMIN
    · simp [h1] at h
    · by_cases h2 : createListingParseOk b = true
      · simp [h1, h2]
      · simp [h1, h2] at h
  · intro db now u b h1 h2 _ _
    unfold createListing
    simp [h1, h2]
  · intro db now u b h
    unfold createRequest
    rcases h with h | h <;>
      by_cases h1 : u.role = Role.ACCEPTOR <;>
        by_cases h2 : createRequestParseOk b = true <;>
          simp [h1, h2, h, truthyQ]
  · intro db now u id b h
    unfold updateListing
    by_cases h1 : updateListingParseOk b = true
    · cases hf : findListingById db id with
      | none => simp [h1, hf]
      | some l =>
        by_cases h2 : u.role ≠ Role.ADMIN ∧ l.userId ≠ u.id <;>
          rcases h with h | h <;> simp [h1, hf, h2, h, truthyQ]
    · simp [h1]

/-- C10 witness: a donor's listing created with no coordinates still runs
the location UPDATE; an acceptor's request created with no coordinates does
not. -/
theorem C10_witness :
    (createListing emptyDb 0 ⟨1, Role.DONOR⟩ bodyChair).status = 201 ∧
    (createListing emptyDb 0 ⟨1, Role.DONOR⟩ bodyChair).locationUpdateRan = true ∧
    (createRequest emptyDb 0 ⟨2, Role.ACCEPTOR⟩ bodyBlanket).locationUpdateRan = false := by
  refine ⟨?_, ?_, ?_⟩
  · exact (C10_location_update_guard.2.1 emptyDb 0 ⟨1, Role.DONOR⟩ bodyChair
      (by decide) (by decide) rfl rfl).1
  · exact (C10_location_update_guard.2.1 emptyDb 0 ⟨1, Role.DONOR⟩ bodyChair
      (by decide) (by decide) rfl rfl).2
  · exact C10_location_update_guard.2.2.1 emptyDb 0 ⟨2, Role.ACCEPTOR⟩ bodyBlanket
      (Or.inl rfl)

/-- C4 counterexample: the claim says createListing succeeds only for role
DONOR, but a caller with role ACCEPTOR gets 201 and a listing row is
created. -/
theorem C4_counterexample :
    (createListing emptyDb 0 ⟨2, Role.ACCEPTOR⟩ bodyChair).status = 201 ∧
    (createListing emptyDb 0 ⟨2, Role.ACCEPTOR⟩ bodyChair).db.listings.length = 1 := by
  decide

/-- C4 (amended): createListing succeeds for every non-ADMIN role (DONOR and
ACCEPTOR alike) and answers 403 with an unchanged database for ADMIN;
createRequest succeeds only for ACCEPTOR and answers 403 with an unchanged
database for every other role. -/
theorem C4_role_gates :
    (∀ (db : Db) (now : Nat) (u : AuthUser) (b : CreateListingBody),
      u.role ≠ Role.ADMIN → createListingParseOk b = true →
      (createListing db now u b).status = 201 ∧
        (createListing db now u b).db.listings.length = db.listings.length + 1) ∧
    (∀ (db : Db) (now : Nat) (u : AuthUser) (b : CreateListingBody),
      u.role = Role.ADMIN →
      (createListing db now u b).status = 403 ∧ (createListing db now u b).db = db) ∧
    (∀ (db : Db) (now : Nat) (u : AuthUser) (b : CreateRequestBody),
      u.role = Role.ACCEPTOR → createRequestParseOk b = true →
      (createRequest db now u b).status = 201 ∧
        (createRequest db now u b).db.requests.length = db.requests.length + 1) ∧
    (∀ (db : Db) (now : Nat) (u : AuthUser) (b : CreateRequestBody),
      u.role ≠ Role.ACCEPTOR →
      (createRequest db now u b).status = 403 ∧ (createRequest db now u b).db = db) := by
  refine ⟨?_, ?_, ?_, ?_⟩
  · intro db now u b h1 h2
    unfold createListing
    simp [h1, h2, updateListingRow, appendLog]
  · intro db now u b h
    unfold createListing
    simp [h]
  · intro db now u b h1 h2
    unfold createRequest
    simp [h1, h2, updateRequestRow, appendLog]
    split <;> simp
  · intro db now u b h
    unfold createRequest
    simp [h]

/-- C4 witness: a donor's createListing succeeds, an admin's is refused, an
acceptor's createRequest succeeds, a donor's createRequest is refused. -/
theorem C4_witness :
    (createListing emptyDb 0 ⟨1, Role.DONOR⟩ bodyChair).status = 201 ∧
    (createListing emptyDb 0 ⟨9, Role.ADMIN⟩ bodyChair).status = 403 ∧
    (createRequest emptyDb 0 ⟨2, Role.ACCEPTOR⟩ bodyBlanket).status = 201 ∧
    (createRequest emptyDb 0 ⟨1, Role.DONOR⟩ bodyBlanket).status = 403 := by
  refine ⟨?_, ?_, ?_, ?_⟩
  · exact (C4_role_gates.1 emptyDb 0 ⟨1, Role.DONOR⟩ bodyChair (by decide) (by decide)).1
  · exact (C4_role_gates.2.1 emptyDb 0 ⟨9, Role.ADMIN⟩ bodyChair rfl).1
  · exact (C4_role_gates.2.2.1 emptyDb 0 ⟨2, Role.ACCEPTOR⟩ bodyBlanket rfl (by decide)).1
  · exact (C4_role_gates.2.2.2 emptyDb 0 ⟨1, Role.DONOR⟩ bodyBlanket (by decide)).1

/-- C5: login issues a JWT iff the e-mail resolves to a user, that user is
verified, and bcrypt accepts the password; an unknown e-mail gives 401, an
unverified account 403, a wrong password 401, never with a token; and the
database is returned unchanged in every case. -/
theorem C5_login (db : Db) (bc : Bcrypt) (email password : String)
    (hp : 1 ≤ password.length) :
    ((login db bc email password).tokenIssued = true ↔
      ∃ u, findUserByEmail db email = some u ∧ u.isVerified = true ∧
        bc.compare password u.password = true) ∧
    ((login db bc email password).status = 200 ↔
      (login db bc email password).tokenIssued = true) ∧
    (findUserByEmail db email = none →
      (login db bc email password).status = 401 ∧
        (login db bc email password).tokenIssued = false) ∧
    (∀ u, findUserByEmail db email = some u → u.isVerified = false →
      (login db bc email password).status = 403 ∧
        (login db bc email password).tokenIssued = false) ∧
    (∀ u, findUserByEmail db email = some u → u.isVerified = true →
      bc.compare password u.password = false →
      (login db bc email password).status = 401 ∧
        (login db bc email password).tokenIssued = false) ∧
    (login db bc email password).db = db := by
  have hlt : ¬ (password.length < 1) := by omega
  unfold login
  cases hf : findUserByEmail db email with
  | none => simp [hlt, hf]
  | some u =>
    cases hv : u.isVerified with
    | false => simp [hlt, hf, hv]
    | true =>
      cases hc : bc.compare password u.password with
      | false => simp [hlt, hf, hv, hc]
      | true => simp [hlt, hf, hv, hc]

/-- C5 witness: with the concrete bcrypt stand-in, the verified fixture user
logs in with the right password (200, token, unchanged db). -/
theorem C5_witness :
    (login dbLogin bcT "a@x" "hello1").status = 200 ∧
    (login dbLogin bcT "a@x" "hello1").db = dbLogin := by
  have h := C5_login dbLogin bcT "a@x" "hello1" (by decide)
  exact ⟨(h.2.1).mpr ((h.1).mpr ⟨userV, by decide, by decide, by decide⟩),
    h.2.2.2.2.2⟩

/-- The success record-update of `verifyOtp`. -/
def otpClear (v : UserRow) : UserRow :=
  { v with isVerified := true, otp := none, otpExpiresAt := none }

theorem verifyOtp_dichotomy (db : Db) (now userId : Nat) (otpCode : String) :
    ((verifyOtp db now userId otpCode).1 = 200 ∧
      (verifyOtp db now userId otpCode).2 = updateUserRow db userId otpClear ∧
      otpParseOk userId otpCode = true ∧
      ∃ u, findUserById db userId = some u ∧ u.isVerified = false ∧
        u.otp = some otpCode ∧ ∃ e, u.otpExpiresAt = some e ∧ ¬ e < now) ∨
    ((verifyOtp db now userId otpCode).1 = 400 ∧
      (verifyOtp db now userId otpCode).2 = db ∧
      ¬ (otpParseOk userId otpCode = true ∧
        ∃ u, findUserById db userId = some u ∧ u.isVerified = false ∧
          u.otp = some otpCode ∧ ∃ e, u.otpExpiresAt = some e ∧ ¬ e < now)) := by
  unfold verifyOtp
  by_cases hpar : otpParseOk userId otpCode = true
  · cases hf : findUserById db userId with
    | none => right; simp [hpar, hf]
    | some u =>
      cases hv : u.isVerified with
      | true => right; simp [hpar, hf, hv]
      | false =>
        by_cases hot : u.otp = some otpCode
        · cases he : u.otpExpiresAt with
          | none => right; simp [hpar, hf, hv, hot, he]
          | some e =>
            by_cases hlt : e < now
            · right; simp [hpar, hf, hv, hot, he, hlt]
            · left
              refine ⟨by simp [hpar, hf, hv, hot, he, hlt], ?_,
                hpar, u, rfl, hv, hot, e, he, hlt⟩
              simp [hpar, hf, hv, hot, he, hlt]
              rfl
        · right; simp [hpar, hf, hv, hot]
  · right; simp [hpar]

theorem findUserById_appendLog (db : Db) (uid : Option Nat) (a : String)
    (n : Nat) (id : Nat) :
    findUserById (appendLog db uid a n) id = findUserById db id := rfl

theorem findListingById_appendLog (db : Db) (uid : Option Nat) (a : String)
    (n : Nat) (id : Nat) :
    findListingById (appendLog db uid a n) id = findListingById db id := rfl

theorem findRequestById_appendLog (db : Db) (uid : Option Nat) (a : String)
    (n : Nat) (id : Nat) :
    findRequestById (appendLog db uid a n) id = findRequestById db id := rfl

theorem register_expiry (db : Db) (bc : Bcrypt) (now : Nat) (oc : String)
    (b : RegisterBody) (h : (register db bc now oc b).1 = 201) :
    ∃ u, (register db bc now oc b).2.users = db.users ++ [u] ∧
      u.otpExpiresAt = some (now + 10 * 60 * 1000) := by
  unfold register at h ⊢
  by_cases h1 : registerParseOk b = true
  · by_cases h2 : (findUserByEmail db b.email).isSome = true
    · simp [h1, h2] at h
    · exact ⟨{ id := db.nextUserId, fname := b.fname, lname := b.lname
               email := b.email, password := bc.hash b.password 10
               role := b.role, address := b.address, location := none
               orgDocuments := none, isVerified := false, otp := some oc
               otpExpiresAt := some (now + 10 * 60 * 1000) },
        by simp [h1, h2], rfl⟩
  · simp [h1] at h

theorem resendOtp_expiry (db : Db) (now : Nat) (oc : String) (uid : Nat)
    (u : UserRow) (hu : findUserById db uid = some u)
    (h : (resendOtp db now oc uid).1 = 200) :
    (findUserById (resendOtp db now oc uid).2 uid).map UserRow.otpExpiresAt =
      some (some (now + 10 * 60 * 1000)) := by
  unfold resendOtp at h ⊢
  by_cases h1 : 1 ≤ uid
  · cases hv : u.isVerified with
    | true => simp [h1, hu, hv] at h
    | false =>
      have hfind := findUserById_updateUserRow db uid
        (fun v => { v with otp := some oc
                           otpExpiresAt := some (now + 10 * 60 * 1000) })
        (fun v => rfl)
      simp [h1, hu, hv, hfind]
  · simp [h1] at h

theorem changePassword_expiry (db : Db) (bc : Bcrypt) (now : Nat) (oc : String)
    (user : AuthUser) (cp np : String) (u : UserRow)
    (hu : findUserById db user.id = some u)
    (h : (changePassword db bc now oc user cp np).1 = 200) :
    (findUserById (changePassword db bc now oc user cp np).2 user.id).map
        UserRow.otpExpiresAt = some (some (now + 10 * 60 * 1000)) := by
  unfold changePassword at h ⊢
  by_cases h1 : changePasswordParseOk cp np = true
  · cases hc : bc.compare cp u.password with
    | false => simp [h1, hu, hc] at h
    | true =>
      cases hs : bc.compare np u.password with
      | true => simp [h1, hu, hc, hs] at h
      | false =>
        have hfind := findUserById_updateUserRow db user.id
          (fun v => { v with password := bc.hash np 10, otp := some oc
                             otpExpiresAt := some (now + 10 * 60 * 1000)
                             isVerified := false })
          (fun v => rfl)
        simp [h1, hu, hc, hs, hfind, findUserById_appendLog]
  · simp [h1] at h

/-- C6: verifyOtp succeeds iff the user exists, is unverified, the
submitted code matches the stored OTP and the stored expiry has not passed;
on success the user is marked verified and the OTP and expiry are cleared,
so a resubmission (any code, any time) answers 400 and changes nothing; on
failure the database is unchanged; and register, resendOtp and
changePassword all stamp the stored expiry at issuance time plus 10
minutes. -/
theorem C6_otp_lifecycle (db : Db) (now userId : Nat) (otpCode : String) :
    ((verifyOtp db now userId otpCode).1 = 200 ↔
      (otpParseOk userId otpCode = true ∧
        ∃ u, findUserById db userId = some u ∧ u.isVerified = false ∧
          u.otp = some otpCode ∧ ∃ e, u.otpExpiresAt = some e ∧ ¬ e < now)) ∧
    (∀ u, findUserById db userId = some u →
      (verifyOtp db now userId otpCode).1 = 200 →
      findUserById (verifyOtp db now userId otpCode).2 userId = some (otpClear u)) ∧
    ((verifyOtp db now userId otpCode).1 = 200 →
      ∀ (now2 : Nat) (code2 : String),
        (verifyOtp (verifyOtp db now userId otpCode).2 now2 userId code2).1 = 400 ∧
        (verifyOtp (verifyOtp db now userId otpCode).2 now2 userId code2).2 =
          (verifyOtp db now userId otpCode).2) ∧
    ((verifyOtp db now userId otpCode).1 ≠ 200 →
      (verifyOtp db now userId otpCode).2 = db) ∧
    (∀ (bc : Bcrypt) (oc : String) (b : RegisterBody),
      (register db bc now oc b).1 = 201 →
      ∃ u, (register db bc now oc b).2.users = db.users ++ [u] ∧
        u.otpExpiresAt = some (now + 10 * 60 * 1000)) ∧
    (∀ (oc : String) (uid : Nat) (u : UserRow), findUserById db uid = some u →
      (resendOtp db now oc uid).1 = 200 →
      (findUserById (resendOtp db now oc uid).2 uid).map UserRow.otpExpiresAt =
        some (some (now + 10 * 60 * 1000))) ∧
    (∀ (bc : Bcrypt) (oc : String) (user : AuthUser) (cp np : String) (u : UserRow),
      findUserById db user.id = some u →
      (changePassword db bc now oc user cp np).1 = 200 →
      (findUserById (changePassword db bc now oc user cp np).2 user.id).map
        UserRow.otpExpiresAt = some (some (now + 10 * 60 * 1000))) := by
  have hd := verifyOtp_dichotomy db now userId otpCode
  refine ⟨?_, ?_, ?_, ?_, ?_, ?_, ?_⟩
  · constructor
    · intro h
      rcases hd with ⟨_, _, hpar, hex⟩ | ⟨h400, _, _⟩
      · exact ⟨hpar, hex⟩
      · rw [h] at h400; exact absurd h400 (by decide)
    · intro hrhs
      rcases hd with ⟨h200, _, _⟩ | ⟨_, _, hneg⟩
      · exact h200
      · exact absurd hrhs hneg
  · intro u hu h
    rcases hd with ⟨_, hdb, _, u0, hu0, _⟩ | ⟨h400, _, _⟩
    · rw [hdb, findUserById_updateUserRow db userId otpClear (fun v => rfl), hu]
      rfl
    · rw [h] at h400; exact absurd h400 (by decide)
  · intro h now2 code2
    rcases hd with ⟨_, hdb, _, u0, hu0, _⟩ | ⟨h400, _, _⟩
    · rw [hdb]
      have hfind : findUserById (updateUserRow db userId otpClear) userId
          = some (otpClear u0) := by
        rw [findUserById_updateUserRow db userId otpClear (fun v => rfl), hu0]
        rfl
      constructor
      · unfold verifyOtp
        by_cases hp2 : otpParseOk userId code2 = true
        · simp [hp2, hfind, otpClear]
        · simp [hp2]
      · unfold verifyOtp
        by_cases hp2 : otpParseOk userId code2 = true
        · simp [hp2, hfind, otpClear]
        · simp [hp2]
    · rw [h] at h400; exact absurd h400 (by decide)
  · intro h
    rcases hd with ⟨h200, _, _⟩ | ⟨_, hdb, _⟩
    · exact absurd h200 h
    · exact hdb
  · intro bc oc b hr
    exact register_expiry db bc now oc b hr
  · intro oc uid u hu hr
    exact resendOtp_expiry db now oc uid u hu hr
  · intro bc oc user cp np u hu hr
    exact changePassword_expiry db bc now oc user cp np u hu hr

/-- C6 witness: the fixture user's OTP is accepted before its expiry, and
the very same code is refused on resubmission. -/
theorem C6_witness :
    (verifyOtp dbOtp 500 1 "123456").1 = 200 ∧
    (verifyOtp (verifyOtp dbOtp 500 1 "123456").2 600 1 "123456").1 = 400 := by
  have h := C6_otp_lifecycle dbOtp 500 1 "123456"
  have h200 : (verifyOtp dbOtp 500 1 "123456").1 = 200 :=
    (h.1).mpr ⟨by decide, userO, by decide, by decide, by decide,
      1000, by decide, by decide⟩
  exact ⟨h200, ((h.2.2.1 h200) 600 "123456").1⟩

theorem find?_append_none {α : Type} (p : α → Bool) (xs ys : List α)
    (h : xs.find? p = none) : (xs ++ ys).find? p = ys.find? p := by
  induction xs with
  | nil => rfl
  | cons a t ih =>
    cases hp : p a with
    | true => simp [List.find?, hp] at h
    | false =>
      simp only [List.find?, hp] at h
      simp only [List.cons_append, List.find?, hp]
      exact ih h

theorem createListing_fresh_status (db : Db) (now : Nat) (u : AuthUser)
    (b : CreateListingBody)
    (hfresh : ∀ l ∈ db.listings, l.id ≠ db.nextListingId)
    (h : (createListing db now u b).status = 201) :
    (findListingById (createListing db now u b).db db.nextListingId).map
      ListingRow.status = some ListingStatus.ACTIVE := by
  unfold createListing at h ⊢
  by_cases h1 : u.role = Role.ADMIN
  · simp [h1] at h
  · by_cases h2 : createListingParseOk b = true
    · simp [h1, h2, findListingById, appendLog, updateListingRow]
      refine ⟨_, Or.inr ⟨?_, rfl⟩, rfl⟩
      intro x hx
      have hne := hfresh x hx
      by_cases hxid : x.id = db.nextListingId
      · exact absurd hxid hne
      · simp [hxid]
    · simp [h1, h2] at h

theorem createRequest_fresh_status (db : Db) (now : Nat) (u : AuthUser)
    (b : CreateRequestBody)
    (hfresh : ∀ r ∈ db.requests, r.id ≠ db.nextRequestId)
    (h : (createRequest db now u b).status = 201) :
    (findRequestById (createRequest db now u b).db db.nextRequestId).map
      RequestRow.status = some RequestStatus.OPEN := by
  unfold createRequest at h ⊢
  by_cases h1 : u.role = Role.ACCEPTOR
  · by_cases h2 : createRequestParseOk b = true
    · by_cases hg : (truthyQ b.longitude && truthyQ b.latitude) = true
      · simp [h1, h2, hg, findRequestById, appendLog, updateRequestRow]
        refine ⟨_, Or.inr ⟨?_, rfl⟩, rfl⟩
        intro x hx
        have hne := hfresh x hx
        by_cases hxid : x.id = db.nextRequestId
        · exact absurd hxid hne
        · simp [hxid]
      · simp [h1, h2, hg, findRequestById, appendLog]
        refine ⟨_, Or.inr ⟨?_, rfl⟩, rfl⟩
        intro x hx
        exact hfresh x hx
    · simp [h1, h2] at h
  · simp [h1] at h

theorem updateListing_sets_status (db : Db) (now : Nat) (u : AuthUser) (id : Nat)
    (b : UpdateListingBody) (l : ListingRow) (s : ListingStatus)
    (hp : updateListingParseOk b = true)
    (hf : findListingById db id = some l)
    (hauth : u.role = Role.ADMIN ∨ l.userId = u.id)
    (hs : b.status = some s) :
    (updateListing db now u id b).status = 200 ∧
    (findListingById (updateListing db now u id b).db id).map ListingRow.status
      = some s := by
  have hna : ¬ (u.role ≠ Role.ADMIN ∧ l.userId ≠ u.id) := by
    rcases hauth with h | h
    · exact fun hc => hc.1 h
    · exact fun hc => hc.2 h
  unfold updateListing
  rw [if_neg (by simp [hp])]
  simp only [hf]
  rw [if_neg hna]
  refine ⟨rfl, ?_⟩
  by_cases hg : (truthyQ b.longitude && truthyQ b.latitude) = true
  · rw [if_pos hg, findListingById_appendLog,
      findListingById_updateListingRow, findListingById_updateListingRow, hf]
    · simp [hs]
    all_goals intro v
    all_goals rfl
  · rw [if_neg hg, findListingById_appendLog,
      findListingById_updateListingRow, hf]
    · simp [hs]
    all_goals intro v
    all_goals rfl

theorem updateRequest_sets_status (db : Db) (now : Nat) (u : AuthUser) (id : Nat)
    (b : UpdateRequestBody) (r : RequestRow) (s : RequestStatus)
    (hp : updateRequestParseOk b = true)
    (hf : findRequestById db id = some r)
    (hauth : u.role = Role.ADMIN ∨ r.userId = u.id)
    (hs : b.status = some s) :
    (updateRequest db now u id b).status = 200 ∧
    (findRequestById (updateRequest db now u id b).db id).map RequestRow.status
      = some s := by
  have hna : ¬ (u.role ≠ Role.ADMIN ∧ r.userId ≠ u.id) := by
    rcases hauth with h | h
    · exact fun hc => hc.1 h
    · exact fun hc => hc.2 h
  unfold updateRequest
  rw [if_neg (by simp [hp])]
  simp only [hf]
  rw [if_neg hna]
  refine ⟨rfl, ?_⟩
  by_cases hg : (truthyQ b.longitude && truthyQ b.latitude) = true
  · rw [if_pos hg, findRequestById_appendLog,
      findRequestById_updateRequestRow, findRequestById_updateRequestRow, hf]
    · simp [hs]
    all_goals intro v
    all_goals rfl
  · rw [if_neg hg, findRequestById_appendLog,
      findRequestById_updateRequestRow, hf]
    · simp [hs]
    all_goals intro v
    all_goals rfl

/-- C3 counterexample: the claim says a listing's status never skips the
intermediate CLAIMED state, but the owner can move a freshly created ACTIVE
listing straight to COMPLETED with one update (200). -/
theorem C3_counterexample :
    (findListingById (createListing emptyDb 0 ⟨3, Role.DONOR⟩ bodyChair).db 1).map
        ListingRow.status = some ListingStatus.ACTIVE ∧
    (updateListing (createListing emptyDb 0 ⟨3, Role.DONOR⟩ bodyChair).db 1
        ⟨3, Role.DONOR⟩ 1 bodySetCompleted).status = 200 ∧
    (findListingById
        (updateListing (createListing emptyDb 0 ⟨3, Role.DONOR⟩ bodyChair).db 1
          ⟨3, Role.DONOR⟩ 1 bodySetCompleted).db 1).map ListingRow.status =
      some ListingStatus.COMPLETED := by
  decide

/-- C3 (amended): no lifecycle order is enforced — a successful
updateListing / updateRequest overwrites the status with exactly the value
supplied (any value of the three-state enum, at any time, so backward moves
and skipped states are accepted); a freshly created listing starts ACTIVE
and a freshly created request starts OPEN. -/
theorem C3_status_freeform :
    (∀ (db : Db) (now : Nat) (u : AuthUser) (b : CreateListingBody),
      (∀ l ∈ db.listings, l.id ≠ db.nextListingId) →
      (createListing db now u b).status = 201 →
      (findListingById (createListing db now u b).db db.nextListingId).map
        ListingRow.status = some ListingStatus.ACTIVE) ∧
    (∀ (db : Db) (now : Nat) (u : AuthUser) (id : Nat) (b : UpdateListingBody)
        (l : ListingRow) (s : ListingStatus),
      updateListingParseOk b = true → findListingById db id = some l →
      (u.role = Role.ADMIN ∨ l.userId = u.id) → b.status = some s →
      (updateListing db now u id b).status = 200 ∧
      (findListingById (updateListing db now u id b).db id).map
        ListingRow.status = some s) ∧
    (∀ (db : Db) (now : Nat) (u : AuthUser) (b : CreateRequestBody),
      (∀ r ∈ db.requests, r.id ≠ db.nextRequestId) →
      (createRequest db now u b).status = 201 →
      (findRequestById (createRequest db now u b).db db.nextRequestId).map
        RequestRow.status = some RequestStatus.OPEN) ∧
    (∀ (db : Db) (now : Nat) (u : AuthUser) (id : Nat) (b : UpdateRequestBody)
        (r : RequestRow) (s : RequestStatus),
      updateRequestParseOk b = true → findRequestById db id = some r →
      (u.role = Role.ADMIN ∨ r.userId = u.id) → b.status = some s →
      (updateRequest db now u id b).status = 200 ∧
      (findRequestById (updateRequest db now u id b).db id).map
        RequestRow.status = some s) :=
  ⟨fun db now u b hfresh h => createListing_fresh_status db now u b hfresh h,
   fun db now u id b l s hp hf ha hs =>
     updateListing_sets_status db now u id b l s hp hf ha hs,
   fun db now u b hfresh h => createRequest_fresh_status db now u b hfresh h,
   fun db now u id b r s hp hf ha hs =>
     updateRequest_sets_status db now u id b r s hp hf ha hs⟩

/-- C3 witness: a concrete fresh request starts OPEN and its owner can set
it straight to CLOSED. -/
theorem C3_witness :
    (findRequestById (createRequest emptyDb 0 ⟨2, Role.ACCEPTOR⟩ bodyBlanket).db
        1).map RequestRow.status = some RequestStatus.OPEN ∧
    (updateRequest dbFk 9 ⟨2, Role.ACCEPTOR⟩ 1 bodySetClosed).status = 200 ∧
    (findRequestById (updateRequest dbFk 9 ⟨2, Role.ACCEPTOR⟩ 1 bodySetClosed).db
        1).map RequestRow.status = some RequestStatus.CLOSED := by
  refine ⟨?_, ?_, ?_⟩
  · exact C3_status_freeform.2.2.1 emptyDb 0 ⟨2, Role.ACCEPTOR⟩ bodyBlanket
      (by decide) (by decide)
  · exact (C3_status_freeform.2.2.2 dbFk 9 ⟨2, Role.ACCEPTOR⟩ 1 bodySetClosed
      requestB RequestStatus.CLOSED (by decide) (by decide) (Or.inr rfl) rfl).1
  · exact (C3_status_freeform.2.2.2 dbFk 9 ⟨2, Role.ACCEPTOR⟩ 1 bodySetClosed
      requestB RequestStatus.CLOSED (by decide) (by decide) (Or.inr rfl) rfl).2

/-- C1 counterexample: getListings called with a positive radius and no
coordinates, by a caller with no stored location, answers 200 with the
plain ACTIVE listings — not the claimed 400 with no results. -/
theorem C1_counterexample :
    (getListings dbNoLoc qRadiusOnly).status = 200 ∧
    (getListings dbNoLoc qRadiusOnly).data ≠ [] := by
  decide

/-- C1 (amended): only getRequests implements the profile-location
fallback — with a positive radius and both coordinates absent it searches
around the caller's stored point (200, usingUserLocation) and answers 400
when the caller has no stored point; getListings never consults the caller:
whenever latitude is absent it runs the non-geospatial query and answers
200. -/
theorem C1_radius_fallback :
    (∀ (db : Db) (dw : DWithin) (user : AuthUser) (q : GetRequestsQuery),
      getRequestsParseOk q = true → q.latitude = none → q.longitude = none →
      user.id ≠ 0 →
      ∀ rad, q.radius = some rad → 0 < rad →
      ∀ u, findUserById db user.id = some u →
        (u.location = none →
          (getRequests db dw user q).status = 400 ∧
          (getRequests db dw user q).data = [] ∧
          (getRequests db dw user q).db = db) ∧
        (∀ p, u.location = some p →
          (getRequests db dw user q).status = 200 ∧
          (getRequests db dw user q).usingUserLocation = true ∧
          (getRequests db dw user q).searchCenter = some p)) ∧
    (∀ (db : Db) (q : GetListingsQuery),
      getListingsParseOk q = true → q.latitude = none →
      (getListings db q).status = 200) := by
  constructor
  · intro db dw user q hok hlat hlng hid rad hrad hpos u hu
    have hcond : ¬ ¬ (rad ≠ 0 ∧ 0 < rad) := not_not_intro ⟨hpos.ne', hpos⟩
    constructor
    · intro hloc
      unfold getRequests
      rw [if_neg (by simp [hok])]
      simp only [hrad]
      rw [if_neg hcond,
        if_pos ⟨Or.inl (by rw [hlat]; rfl), hid⟩]
      simp [hu, hloc]
    · intro p hloc
      unfold getRequests
      rw [if_neg (by simp [hok])]
      simp only [hrad]
      rw [if_neg hcond,
        if_pos ⟨Or.inl (by rw [hlat]; rfl), hid⟩]
      simp [hu, hloc]
  · intro db q hok hlat
    unfold getListings
    rw [if_neg (by simp [hok])]
    have : truthyQ q.latitude = false := by rw [hlat]; rfl
    simp [this]

/-- C1 witness: with a stored profile point the requests search runs around
it (200, usingUserLocation set); without one it answers 400; and the
listings endpoint called the same way answers 200. -/
theorem C1_witness :
    (getRequests dbReqLoc dwT ⟨1, Role.ACCEPTOR⟩ qRadiusOnlyR).status = 200 ∧
    (getRequests dbReqLoc dwT ⟨1, Role.ACCEPTOR⟩ qRadiusOnlyR).usingUserLocation
      = true ∧
    (getRequests dbNoLoc dwT ⟨1, Role.DONOR⟩ qRadiusOnlyR).status = 400 ∧
    (getListings dbNoLoc qRadiusOnly).status = 200 := by
  have h := C1_radius_fallback
  have hyes := (h.1 dbReqLoc dwT ⟨1, Role.ACCEPTOR⟩ qRadiusOnlyR (by decide)
    rfl rfl (by decide) 5000 rfl (by decide) userLoc (by decide)).2
    (30, -2) (by decide)
  have hno := (h.1 dbNoLoc dwT ⟨1, Role.DONOR⟩ qRadiusOnlyR (by decide)
    rfl rfl (by decide) 5000 rfl (by decide) userNoLoc (by decide)).1 rfl
  exact ⟨hyes.1, hyes.2.1, hno.1, h.2 dbNoLoc qRadiusOnly (by decide) rfl⟩

/-- C8: the declared foreign-key rules hold in the model — deleting a
listing (resp. request) nulls the listingId (resp. requestId) of every
message that referenced it and leaves other message fields alone; deleting
a user is restricted while the user still owns listings, requests or
messages (as sender or receiver): the call fails with 500 and nothing
changes; a successful user delete removes the row and nulls the userId of
that user's audit-log rows. -/
theorem C8_fk_rules :
    (∀ (db : Db) (now : Nat) (u : AuthUser) (id : Nat) (listing : ListingRow),
      findListingById db id = some listing →
      (u.role = Role.ADMIN ∨ listing.userId = u.id) →
      (deleteListing db now u id).1 = 204 ∧
      findListingById (deleteListing db now u id).2 id = none ∧
      (deleteListing db now u id).2.messages
        = db.messages.map (fun m =>
            if m.listingId = some id then { m with listingId := none } else m) ∧
      ∀ m ∈ (deleteListing db now u id).2.messages, m.listingId ≠ some id) ∧
    (∀ (db : Db) (now : Nat) (u : AuthUser) (id : Nat) (request : RequestRow),
      findRequestById db id = some request →
      (u.role = Role.ADMIN ∨ request.userId = u.id) →
      (deleteRequest db now u id).1 = 204 ∧
      findRequestById (deleteRequest db now u id).2 id = none ∧
      (deleteRequest db now u id).2.messages
        = db.messages.map (fun m =>
            if m.requestId = some id then { m with requestId := none } else m) ∧
      ∀ m ∈ (deleteRequest db now u id).2.messages, m.requestId ≠ some id) ∧
    (∀ (db : Db) (now : Nat) (c : AuthUser) (id : Nat) (u : UserRow),
      findUserById db id = some u →
      ((∃ l ∈ db.listings, l.userId = id) ∨ (∃ r ∈ db.requests, r.userId = id) ∨
        (∃ m ∈ db.messages, m.senderId = id ∨ m.receiverId = id)) →
      (deleteUser db now c id).1 = 500 ∧ (deleteUser db now c id).2 = db) ∧
    (∀ (db : Db) (now : Nat) (c : AuthUser) (id : Nat) (u : UserRow),
      findUserById db id = some u → userOwnsRows db id = false →
      (deleteUser db now c id).1 = 200 ∧
      findUserById (deleteUser db now c id).2 id = none ∧
      (deleteUser db now c id).2.logs
        = (db.logs.map (fun l =>
            if l.userId = some id then { l with userId := none } else l)) ++
          [{ id := db.nextLogId, userId := some c.id
             action := "User " ++ toString id ++ " deleted", createdAt := now }]) := by
  refine ⟨?_, ?_, ?_, ?_⟩
  · intro db now u id listing hf hauth
    have hna : ¬ (u.role ≠ Role.ADMIN ∧ listing.userId ≠ u.id) := by
      rcases hauth with h | h
      · exact fun hc => hc.1 h
      · exact fun hc => hc.2 h
    unfold deleteListing
    simp only [hf]
    rw [if_neg hna]
    refine ⟨rfl, ?_, rfl, ?_⟩
    · rw [findListingById_appendLog]
      unfold findListingById
      exact find?_filter_none _ _
        (fun a ha => beq_eq_false_iff_ne.mpr (bne_iff_ne.mp ha)) _
    · intro m hm
      rcases List.mem_map.mp hm with ⟨m0, _, rfl⟩
      by_cases hc : m0.listingId = some id
      · simp [hc]
      · simp [hc]
  · intro db now u id request hf hauth
    have hna : ¬ (u.role ≠ Role.ADMIN ∧ request.userId ≠ u.id) := by
      rcases hauth with h | h
      · exact fun hc => hc.1 h
      · exact fun hc => hc.2 h
    unfold deleteRequest
    simp only [hf]
    rw [if_neg hna]
    refine ⟨rfl, ?_, rfl, ?_⟩
    · rw [findRequestById_appendLog]
      unfold findRequestById
      exact find?_filter_none _ _
        (fun a ha => beq_eq_false_iff_ne.mpr (bne_iff_ne.mp ha)) _
    · intro m hm
      rcases List.mem_map.mp hm with ⟨m0, _, rfl⟩
      by_cases hc : m0.requestId = some id
      · simp [hc]
      · simp [hc]
  · intro db now c id u hf hdep
    have hown : userOwnsRows db id = true := by
      unfold userOwnsRows
      rcases hdep with ⟨l, hl, hlid⟩ | ⟨r, hr, hrid⟩ | ⟨m, hm, hmid⟩
      · have hx : db.listings.any (fun l => l.userId == id) = true :=
          List.any_eq_true.mpr ⟨l, hl, by simp [hlid]⟩
        simp [hx]
      · have hx : db.requests.any (fun r => r.userId == id) = true :=
          List.any_eq_true.mpr ⟨r, hr, by simp [hrid]⟩
        simp [hx]
      · have hx : db.messages.any
            (fun m => m.senderId == id || m.receiverId == id) = true :=
          List.any_eq_true.mpr ⟨m, hm, by rcases hmid with h | h <;> simp [h]⟩
        simp [hx]
    unfold deleteUser
    simp only [hf]
    rw [if_pos hown]
    exact ⟨rfl, rfl⟩
  · intro db now c id u hf hnot
    unfold deleteUser
    simp only [hf]
    rw [if_neg (by simp [hnot])]
    refine ⟨rfl, ?_, rfl⟩
    rw [findUserById_appendLog]
    unfold findUserById
    exact find?_filter_none _ _
      (fun a ha => beq_eq_false_iff_ne.mpr (bne_iff_ne.mp ha)) _

/-- C8 witness: deleting listing 1 nulls the attached message's listingId;
deleting user 2, who still has a message, is restricted (500, unchanged). -/
theorem C8_witness :
    (deleteListing dbFk 9 ⟨1, Role.ADMIN⟩ 1).1 = 204 ∧
    (deleteListing dbFk 9 ⟨1, Role.ADMIN⟩ 1).2.messages
      = [{ msgAttached with listingId := none }] ∧
    (deleteUser dbFk 9 ⟨1, Role.ADMIN⟩ 2).1 = 500 ∧
    (deleteUser dbFk 9 ⟨1, Role.ADMIN⟩ 2).2 = dbFk := by
  have h1 := C8_fk_rules.1 dbFk 9 ⟨1, Role.ADMIN⟩ 1 listingA (by decide) (Or.inl rfl)
  have h3 := C8_fk_rules.2.2.1 dbFk 9 ⟨1, Role.ADMIN⟩ 2 victimU (by decide)
    (Or.inr (Or.inr ⟨msgAttached, by decide, Or.inr rfl⟩))
  refine ⟨h1.1, ?_, h3.1, h3.2⟩
  rw [h1.2.2.1]
  decide

/-- C7 counterexample: the claim says every log row's userId survives every
later operation, but deleteUser (via `Log_userId_fkey ON DELETE SET NULL`)
rewrites the fixture row's userId from `some 2` to `none`. -/
theorem C7_counterexample :
    logRow2.userId = some 2 ∧
    ((step bcT dwT (Op.opDeleteUser 9 ⟨1, Role.ADMIN⟩ 2) dbDel).logs.head?).map
      LogRow.userId = some none := by
  decide

/-- C7 (amended): every modelled operation either reads the audit log or
appends to it — no operation rewrites or deletes a row's id, action or
createdAt — but the userId reference of a row is only preserved up to the
`ON DELETE SET NULL` nulling performed when its user is deleted. -/
theorem C7_append_only (bc : Bcrypt) (dw : DWithin) (op : Op) (db : Db) :
    ∀ row ∈ db.logs, ∃ row' ∈ (step bc dw op db).logs, logRowPreserved row row' := by
  apply preserved_of_extends
  cases op with
  | opRegister now otp b =>
    simp only [step]
    unfold register
    repeat' split
    all_goals first
      | exact Or.inl rfl
      | exact Or.inr (Or.inl ⟨_, rfl⟩)
      | exact Or.inr (Or.inr ⟨_, _, rfl⟩)
  | opVerifyOtp now uid otp =>
    simp only [step]
    unfold verifyOtp
    repeat' split
    all_goals first
      | exact Or.inl rfl
      | exact Or.inr (Or.inl ⟨_, rfl⟩)
      | exact Or.inr (Or.inr ⟨_, _, rfl⟩)
  | opResendOtp now otp uid =>
    simp only [step]
    unfold resendOtp
    repeat' split
    all_goals first
      | exact Or.inl rfl
      | exact Or.inr (Or.inl ⟨_, rfl⟩)
      | exact Or.inr (Or.inr ⟨_, _, rfl⟩)
  | opLogin e p =>
    simp only [step]
    unfold login
    repeat' split
    all_goals first
      | exact Or.inl rfl
      | exact Or.inr (Or.inl ⟨_, rfl⟩)
      | exact Or.inr (Or.inr ⟨_, _, rfl⟩)
  | opGetLogs p l s =>
    simp only [step]
    unfold getLogs
    repeat' split
    all_goals first
      | exact Or.inl rfl
      | exact Or.inr (Or.inl ⟨_, rfl⟩)
      | exact Or.inr (Or.inr ⟨_, _, rfl⟩)
  | opCreateListing now u b =>
    simp only [step]
    unfold createListing
    dsimp only
    repeat' split
    all_goals first
      | exact Or.inl rfl
      | exact Or.inr (Or.inl ⟨_, rfl⟩)
      | exact Or.inr (Or.inr ⟨_, _, rfl⟩)
  | opGetListings q =>
    simp only [step]
    unfold getListings
    repeat' split
    all_goals first
      | exact Or.inl rfl
      | exact Or.inr (Or.inl ⟨_, rfl⟩)
      | exact Or.inr (Or.inr ⟨_, _, rfl⟩)
  | opGetListingById i =>
    simp only [step]
    unfold getListingById
    repeat' split
    all_goals first
      | exact Or.inl rfl
      | exact Or.inr (Or.inl ⟨_, rfl⟩)
      | exact Or.inr (Or.inr ⟨_, _, rfl⟩)
  | opUpdateListing now u i b =>
    simp only [step]
    unfold updateListing
    dsimp only
    repeat' split
    all_goals first
      | exact Or.inl rfl
      | exact Or.inr (Or.inl ⟨_, rfl⟩)
      | exact Or.inr (Or.inr ⟨_, _, rfl⟩)
  | opDeleteListing now u i =>
    simp only [step]
    unfold deleteListing
    repeat' split
    all_goals first
      | exact Or.inl rfl
      | exact Or.inr (Or.inl ⟨_, rfl⟩)
      | exact Or.inr (Or.inr ⟨_, _, rfl⟩)
  | opCreateRequest now u b =>
    simp only [step]
    unfold createRequest
    dsimp only
    repeat' split
    all_goals first
      | exact Or.inl rfl
      | exact Or.inr (Or.inl ⟨_, rfl⟩)
      | exact Or.inr (Or.inr ⟨_, _, rfl⟩)
  | opGetRequests u q =>
    simp only [step]
    unfold getRequests
    repeat' split
    all_goals first
      | exact Or.inl rfl
      | exact Or.inr (Or.inl ⟨_, rfl⟩)
      | exact Or.inr (Or.inr ⟨_, _, rfl⟩)
  | opGetRequestById i =>
    simp only [step]
    unfold getRequestById
    repeat' split
    all_goals first
      | exact Or.inl rfl
      | exact Or.inr (Or.inl ⟨_, rfl⟩)
      | exact Or.inr (Or.inr ⟨_, _, rfl⟩)
  | opUpdateRequest now u i b =>
    simp only [step]
    unfold updateRequest
    dsimp only
    repeat' split
    all_goals first
      | exact Or.inl rfl
      | exact Or.inr (Or.inl ⟨_, rfl⟩)
      | exact Or.inr (Or.inr ⟨_, _, rfl⟩)
  | opDeleteRequest now u i =>
    simp only [step]
    unfold deleteRequest
    repeat' split
    all_goals first
      | exact Or.inl rfl
      | exact Or.inr (Or.inl ⟨_, rfl⟩)
      | exact Or.inr (Or.inr ⟨_, _, rfl⟩)
  | opSendMessage now s b =>
    simp only [step]
    unfold sendMessage
    repeat' split
    all_goals first
      | exact Or.inl rfl
      | exact Or.inr (Or.inl ⟨_, rfl⟩)
      | exact Or.inr (Or.inr ⟨_, _, rfl⟩)
  | opGetMessages now u lid rid p l =>
    simp only [step]
    unfold getMessages
    repeat' split
    all_goals first
      | exact Or.inl rfl
      | exact Or.inr (Or.inl ⟨_, rfl⟩)
      | exact Or.inr (Or.inr ⟨_, _, rfl⟩)
  | opGetUserProfile u =>
    simp only [step]
    unfold getUserProfile
    repeat' split
    all_goals first
      | exact Or.inl rfl
      | exact Or.inr (Or.inl ⟨_, rfl⟩)
      | exact Or.inr (Or.inr ⟨_, _, rfl⟩)
  | opGetUsers now c p l s =>
    simp only [step]
    unfold getUsers
    repeat' split
    all_goals first
      | exact Or.inl rfl
      | exact Or.inr (Or.inl ⟨_, rfl⟩)
      | exact Or.inr (Or.inr ⟨_, _, rfl⟩)
  | opDeleteUser now c i =>
    simp only [step]
    unfold deleteUser
    repeat' split
    all_goals first
      | exact Or.inl rfl
      | exact Or.inr (Or.inl ⟨_, rfl⟩)
      | exact Or.inr (Or.inr ⟨_, _, rfl⟩)
  | opUpdateUser now c b =>
    simp only [step]
    unfold updateUser
    dsimp only
    repeat' split
    all_goals first
      | exact Or.inl rfl
      | exact Or.inr (Or.inl ⟨_, rfl⟩)
      | exact Or.inr (Or.inr ⟨_, _, rfl⟩)
  | opUpdateUserLocation now c lo la =>
    simp only [step]
    unfold updateUserLocation
    repeat' split
    all_goals first
      | exact Or.inl rfl
      | exact Or.inr (Or.inl ⟨_, rfl⟩)
      | exact Or.inr (Or.inr ⟨_, _, rfl⟩)
  | opChangePassword now otp u cp np =>
    simp only [step]
    unfold changePassword
    repeat' split
    all_goals first
      | exact Or.inl rfl
      | exact Or.inr (Or.inl ⟨_, rfl⟩)
      | exact Or.inr (Or.inr ⟨_, _, rfl⟩)

/-- C7 witness: the fixture log row survives a getUsers call (which appends
its own "Users list viewed" row). -/
theorem C7_witness :
    ∃ row' ∈ (step bcT dwT (Op.opGetUsers 9 ⟨1, Role.ADMIN⟩ 1 10 "") dbDel).logs,
      logRowPreserved logRow2 row' :=
  C7_append_only bcT dwT (Op.opGetUsers 9 ⟨1, Role.ADMIN⟩ 1 10 "") dbDel
    logRow2 (by decide)

/-- C2: the geospatial SELECT of getListings references the camelCase
columns unquoted — Postgres folds `userId` and `createdAt` to `userid` and
`createdat`, names that do not exist among the quoted columns of table
`"Listing"` — while every reference in the getRequests SELECT resolves to a
real column of `"Request"`; consequently the modelled getListings answers
500 on any call that reaches the geospatial branch. -/
theorem C2_listing_geo_sql_defect :
    (SqlIdent.mk "userId" false) ∈ listingGeoQueryColumnRefs ∧
    pgResolve (SqlIdent.mk "userId" false) ∉ listingTableColumns ∧
    (SqlIdent.mk "createdAt" false) ∈ listingGeoQueryColumnRefs ∧
    pgResolve (SqlIdent.mk "createdAt" false) ∉ listingTableColumns ∧
    (SqlIdent.mk "userId" true) ∈ requestGeoQueryColumnRefs ∧
    (∀ i ∈ requestGeoQueryColumnRefs, pgResolve i ∈ requestTableColumns) ∧
    (getListings dbNoLoc
      { latitude := some 1, longitude := some 1, radius := some 1000
        category := some Category.FOOD, page := 1, limit := 10 }).status = 500 := by
  decide
